import Mathlib

/-!
# tinygl.h : a shallow embedding and its verified properties

The definitions below transcribe `src/tinygl.h` function by function.

Conventions of the embedding

* `uint32_t` / `uint64_t` values are natural numbers; where the C arithmetic can
  wrap, the reduction modulo `2 ^ 32` is written out.
* A C string (`char*`, NUL terminated) is the list of its bytes; reading stops
  at the first zero byte or at the end of the list.
* A `float` is carried as its IEEE-754 single precision bit pattern; the code
  only ever forwards floats, it never computes with them in the modelled
  functions.
* `TG_DEBUG_CHECKS` is `1` (line 6), so `TG_ASSERT` is `assert`: a failed
  assertion ends the run, which is the `Except.error` result here.
* Calls into OpenGL are recorded as values of `GLCall`; what the device
  answers (introspection results, wait results, mapped pointers) is an
  explicit input.
-/

namespace TinyGL

/-! ## Constants -/

/-- Scalar kinds, the anonymous enum of lines 8 to 15. -/
def TG_FLOAT : Nat := 0
def TG_INT : Nat := 1
def TG_BOOL : Nat := 2
def TG_SAMPLER : Nat := 3
def TG_UNKNOWN : Nat := 4

def TG_ATTRIBUTE_MAX_COUNT : Nat := 16
def TG_UNIFORM_NAME_LENGTH : Nat := 64
def TG_UNIFORM_MAX_COUNT : Nat := 16

/-- Number of draw calls for which `tgMakeCtx` reserves storage (line 171). -/
def TG_CTX_ALLOCATED_CALLS : Nat := 1024

/-! OpenGL enumerants used by the file, with their values from the OpenGL
registry headers (`glcorearb.h`). -/

def GL_INT : Nat := 0x1404
def GL_FLOAT : Nat := 0x1406
def GL_UNSIGNED_BYTE : Nat := 0x1401
def GL_FLOAT_VEC2 : Nat := 0x8B50
def GL_FLOAT_VEC3 : Nat := 0x8B51
def GL_FLOAT_VEC4 : Nat := 0x8B52
def GL_INT_VEC2 : Nat := 0x8B53
def GL_INT_VEC3 : Nat := 0x8B54
def GL_INT_VEC4 : Nat := 0x8B55
def GL_BOOL : Nat := 0x8B56
def GL_BOOL_VEC2 : Nat := 0x8B57
def GL_BOOL_VEC3 : Nat := 0x8B58
def GL_BOOL_VEC4 : Nat := 0x8B59
def GL_FLOAT_MAT2 : Nat := 0x8B5A
def GL_FLOAT_MAT3 : Nat := 0x8B5B
def GL_FLOAT_MAT4 : Nat := 0x8B5C
def GL_SAMPLER_1D : Nat := 0x8B5D
def GL_SAMPLER_2D : Nat := 0x8B5E
def GL_SAMPLER_3D : Nat := 0x8B5F
def GL_STREAM_DRAW : Nat := 0x88E0
def GL_STATIC_DRAW : Nat := 0x88E4
def GL_DYNAMIC_DRAW : Nat := 0x88E8
def GL_ARRAY_BUFFER : Nat := 0x8892
def GL_ALREADY_SIGNALED : Nat := 0x911A
def GL_TIMEOUT_EXPIRED : Nat := 0x911B
def GL_CONDITION_SATISFIED : Nat := 0x911C
def GL_WAIT_FAILED : Nat := 0x911D
def GL_SYNC_GPU_COMMANDS_COMPLETE : Nat := 0x9117
def GL_MAP_WRITE_BIT : Nat := 0x0002
def GL_MAP_UNSYNCHRONIZED_BIT : Nat := 0x0020
def GL_TEXTURE0 : Nat := 0x84C0
def GL_TEXTURE_2D : Nat := 0x0DE1
def GL_FALSE : Nat := 0

/-- Bit pattern of the float literal `1.0f`. -/
def F32_ONE : Nat := 0x3F800000

/-! ## Data model -/

/-- The struct `tgVertexAttribute` (lines 17 to 25). `location` is not written by
`tgAddAttribute`; `none` stands for that indeterminate value. -/
structure tgVertexAttribute where
  name : List Nat
  hash : Nat
  size : Nat
  type : Nat
  offset : Nat
  location : Option Nat
  deriving DecidableEq, Repr

/-- The struct `tgVertexData` (lines 28 to 37). The pair `attribute_count`,
`attributes[16]` is the list of the attributes added so far. -/
structure tgVertexData where
  buffer_size : Nat
  vertex_stride : Nat
  primitive : Nat
  usage : Nat
  attributes : List tgVertexAttribute
  deriving DecidableEq, Repr

def tgVertexData.attribute_count (vd : tgVertexData) : Nat := vd.attributes.length

/-- The four bit-fields of `tgRenderState` (lines 43 to 49). -/
structure tgRenderState where
  fullscreen : Nat
  hud : Nat
  depth : Nat
  translucency : Nat
  deriving DecidableEq, Repr

/-- The `uint64_t key` member that overlays the bit-fields in the union
(line 51). The file is written for x86 Windows (it links `glu32.lib`, line
765); there, as with GCC and Clang on every little-endian ABI, bit-fields are
allocated from the least significant bit of the storage unit in declaration
order: `fullscreen` is bits 0-1, `hud` bits 2-6, `depth` bits 7-31 and
`translucency` bits 32-63. -/
def tgRenderState.key (s : tgRenderState) : Nat :=
  s.fullscreen % 2 ^ 2 + 2 ^ 2 * (s.hud % 2 ^ 5) + 2 ^ 7 * (s.depth % 2 ^ 25)
    + 2 ^ 32 * (s.translucency % 2 ^ 32)

/-- The struct `tgUniform` (lines 78 to 86). -/
structure tgUniform where
  name : List Nat
  id : Nat
  hash : Nat
  size : Nat
  type : Nat
  location : Nat
  deriving DecidableEq, Repr

/-- The struct `tgShader` (lines 88 to 93); `uniform_count` is the length of
`uniforms`. -/
structure tgShader where
  program : Nat
  uniforms : List tgUniform
  deriving DecidableEq, Repr

def tgShader.uniform_count (s : tgShader) : Nat := s.uniforms.length

/-- The struct `tgRenderable` (lines 59 to 73). `program` is the pointer to the
bound shader, `none` for the null pointer. -/
structure tgRenderable where
  data : tgVertexData
  program : Option tgShader
  state : tgRenderState
  attributeCount : Nat
  index0 : Nat
  index1 : Nat
  buffer_number : Nat
  need_new_sync : Nat
  buffer_count : Nat
  buffers : List Nat
  fences : List Nat
  deriving DecidableEq, Repr

/-- The struct `tgDrawCall` (lines 95 to 102). `verts` and `r` are pointers, kept
as addresses. -/
structure tgDrawCall where
  vert_count : Nat
  verts : Nat
  r : Nat
  texture_count : Nat
  textures : List Nat
  deriving DecidableEq, Repr, Inhabited

/-- The struct `tgContext` (lines 156 to 161). `calls` is the block obtained from
`malloc`; a cell that was never written is `none`. -/
structure tgContext where
  max_draw_calls : Nat
  count : Nat
  calls : List (Option tgDrawCall)
  deriving DecidableEq, Repr

/-- Ways in which a run ends without returning. -/
inductive TgError where
  | assertion (line : Nat)
  | outOfBounds (line : Nat)
  | nullPointer (line : Nat)
  deriving DecidableEq, Repr

/-! ## Name hashing -/

/-- The loop of `tg_djb2` (lines 192 to 193): `hash = ((hash << 5) + hash) + c`
in `uint32_t`, until the terminating zero byte. -/
def tg_djb2.loop : List Nat → Nat → Nat
  | [], hash => hash
  | c :: str, hash =>
    if c = 0 then hash
    else tg_djb2.loop str ((((hash * 2 ^ 5) % 2 ^ 32 + hash) % 2 ^ 32 + c) % 2 ^ 32)

/-- The function `tg_djb2` (lines 187 to 196). -/
def tg_djb2 (str : List Nat) : Nat := tg_djb2.loop str 5381

/-- The function `tgGetGLType` (lines 207 to 240). -/
def tgGetGLType (type : Nat) : Nat :=
  if type = GL_INT ∨ type = GL_INT_VEC2 ∨ type = GL_INT_VEC3 ∨ type = GL_INT_VEC4 then TG_INT
  else if type = GL_FLOAT ∨ type = GL_FLOAT_VEC2 ∨ type = GL_FLOAT_VEC3 ∨ type = GL_FLOAT_VEC4
      ∨ type = GL_FLOAT_MAT2 ∨ type = GL_FLOAT_MAT3 ∨ type = GL_FLOAT_MAT4 then TG_FLOAT
  else if type = GL_BOOL ∨ type = GL_BOOL_VEC2 ∨ type = GL_BOOL_VEC3 ∨ type = GL_BOOL_VEC4 then TG_BOOL
  else if type = GL_SAMPLER_1D ∨ type = GL_SAMPLER_2D ∨ type = GL_SAMPLER_3D then TG_SAMPLER
  else TG_UNKNOWN

/-! ## Draw call sorting -/

/-- The function `tgCallSortPred` (lines 583 to 586): the keys are read through
the renderable pointers of the two calls; `heap` is the memory holding the
renderables. -/
def tgCallSortPred (heap : Nat → tgRenderable) (a b : tgDrawCall) : Bool :=
  decide ((heap a.r).state.key < (heap b.r).state.key)

/-- The three assignments of lines 598 to 600, exchanging `items[i]` and
`items[low]`. -/
def tgQSort.swap (items : List tgDrawCall) (i low : Nat) : List tgDrawCall :=
  let tmp := items.getD i default
  let items := items.set i (items.getD low default)
  items.set low tmp

/-- The `for` loop of lines 594 to 603. `steps` is the number of iterations left,
`count - 1 - i`; the result is the final `low` and array. -/
def tgQSort.loop (heap : Nat → tgRenderable) (pivot : tgDrawCall) :
    Nat → Nat → Nat → List tgDrawCall → Nat × List tgDrawCall
  | 0, _, low, items => (low, items)
  | steps + 1, i, low, items =>
    if tgCallSortPred heap (items.getD i default) pivot then
      tgQSort.loop heap pivot steps (i + 1) (low + 1) (tgQSort.swap items i low)
    else
      tgQSort.loop heap pivot steps (i + 1) low items

/-- Lines 592 to 606: choose the last element as pivot, run the loop, and put
the pivot at `low`. -/
def tgQSort.partition (heap : Nat → tgRenderable) (items : List tgDrawCall) :
    Nat × List tgDrawCall :=
  let count := items.length
  let pivot := items.getD (count - 1) default
  let (low, items) := tgQSort.loop heap pivot (count - 1) 0 0 items
  let items := items.set (count - 1) (items.getD low default)
  let items := items.set low pivot
  (low, items)

/-- The function `tgQSort` (lines 588 to 609) on the array segment
`items[0 .. count)`, given as a list. The two recursive calls work in place on
the disjoint segments `items[0 .. low)` and `items[low + 1 .. count)`, so the
array afterwards is the concatenation written here. `fuel` bounds the
recursion depth. -/
def tgQSort.go (heap : Nat → tgRenderable) : Nat → List tgDrawCall → List tgDrawCall
  | 0, items => items
  | fuel + 1, items =>
    if items.length ≤ 1 then items
    else
      let (low, items) := tgQSort.partition heap items
      tgQSort.go heap fuel (items.take low)
        ++ (items.drop low).take 1
        ++ tgQSort.go heap fuel (items.drop (low + 1))

/-- The function `tgQSort` with recursion depth `count`, which the recursion never
exceeds since each level removes the pivot. -/
def tgQSort (heap : Nat → tgRenderable) (items : List tgDrawCall) : List tgDrawCall :=
  tgQSort.go heap items.length items

/-! ## Ordering of render states -/

/-- Strict lexicographic order on quadruples of numbers, first component most
significant. -/
def lexLt4 (a b : Nat × Nat × Nat × Nat) : Prop :=
  a.1 < b.1 ∨ (a.1 = b.1 ∧ (a.2.1 < b.2.1 ∨ (a.2.1 = b.2.1 ∧
    (a.2.2.1 < b.2.2.1 ∨ (a.2.2.1 = b.2.2.1 ∧ a.2.2.2 < b.2.2.2)))))

instance (a b : Nat × Nat × Nat × Nat) : Decidable (lexLt4 a b) := by
  unfold lexLt4; infer_instance

/-- The fields of a render state lie within their declared bit widths. -/
def tgRenderState.inRange (s : tgRenderState) : Prop :=
  s.fullscreen < 2 ^ 2 ∧ s.hud < 2 ^ 5 ∧ s.depth < 2 ^ 25 ∧ s.translucency < 2 ^ 32

instance (s : tgRenderState) : Decidable s.inRange := by
  unfold tgRenderState.inRange; infer_instance

/-! ## The device -/

/-- One call made by the library into OpenGL (or `memcpy`), with its arguments.
For calls that create an object the last argument is the name the device
returned. An attribute location that was never assigned is `none`. -/
inductive GLCall where
  | glCreateProgram (program : Nat)
  | glCreateShader (type shader : Nat)
  | glShaderSource (shader : Nat)
  | glCompileShader (shader : Nat)
  | glAttachShader (program shader : Nat)
  | glLinkProgram (program : Nat)
  | glDetachShader (program shader : Nat)
  | glClientWaitSync (sync flags timeout : Nat)
  | glDeleteSync (sync : Nat)
  | glBindBuffer (target buffer : Nat)
  | glMapBufferRange (target offset length access : Nat)
  | glUnmapBuffer (target : Nat)
  | glGenBuffers (n buffer : Nat)
  | glBufferData (target size data usage : Nat)
  | glFenceSync (condition flags sync : Nat)
  | glUseProgram (program : Nat)
  | glEnableVertexAttribArray (index : Option Nat)
  | glVertexAttribPointer (index : Option Nat) (size type normalized stride pointer : Nat)
  | glDisableVertexAttribArray (index : Option Nat)
  | glActiveTexture (texture : Nat)
  | glBindTexture (target texture : Nat)
  | glDrawArrays (mode first count : Nat)
  | glUniform1f (location v0 : Nat)
  | glUniform2f (location v0 v1 : Nat)
  | glUniform3f (location v0 v1 v2 : Nat)
  | glUniform4f (location v0 v1 v2 v3 : Nat)
  | glUniformMatrix4fv (location count transpose : Nat) (value : List Nat)
  | glUniform1i (location v0 : Nat)
  | memcpy (dst src n : Nat)
  deriving DecidableEq, Repr

/-- The state of the device as far as the library can tell: the calls issued
so far, oldest first, and the next object name the device will hand out. -/
structure GLDevice where
  calls : List GLCall
  nextName : Nat
  deriving DecidableEq, Repr

/-- Record a call. -/
def GLDevice.emit (dev : GLDevice) (c : GLCall) : GLDevice :=
  { dev with calls := dev.calls ++ [c] }

/-- Hand out a fresh object name. -/
def GLDevice.fresh (dev : GLDevice) : Nat × GLDevice :=
  (dev.nextName, { dev with nextName := dev.nextName + 1 })

/-- Answers of the device that the library branches on: the result of
`glClientWaitSync` for a sync object, and the pointer `glMapBufferRange`
returns for an offset and a length (0 is the null pointer). -/
structure GLDriver where
  clientWaitSync : Nat → Nat
  mapBufferRange : Nat → Nat → Nat

/-- An active vertex attribute of a linked program, as the device holds it. -/
structure GLActiveAttrib where
  name : List Nat
  type : Nat
  size : Nat
  deriving DecidableEq, Repr

/-- An active uniform of a linked program, as the device holds it, with the
location the linker gave it. -/
structure GLActiveUniform where
  name : List Nat
  type : Nat
  size : Nat
  location : Nat
  deriving DecidableEq, Repr

/-- What the device makes of a pair of shader sources. -/
structure GLProgramInfo where
  vertexCompiled : Bool
  pixelCompiled : Bool
  linked : Bool
  uniforms : List GLActiveUniform
  deriving DecidableEq, Repr

/-- The name `glGetActiveAttrib` and `glGetActiveUniform` write into a buffer of
`bufSize` bytes: at most `bufSize - 1` characters, then the terminator. -/
def glNameInto (bufSize : Nat) (name : List Nat) : List Nat := name.take (bufSize - 1)

/-- The answer of `glGetUniformLocation`: the location of the active uniform of
that name, or `-1` (here as `uint32_t`) when there is none. -/
def glGetUniformLocation : List GLActiveUniform → List Nat → Nat
  | [], _ => 2 ^ 32 - 1
  | u :: us, name => if u.name = name then u.location else glGetUniformLocation us name

/-! ## Context and draw call queue -/

/-- The function `tgMakeCtx` (lines 166 to 178). `callsAllocated` tells whether the
second `malloc` succeeded; the block it returns has room for 1024 draw calls
whatever `max_draw_calls` is. The result `none` is the null pointer. -/
def tgMakeCtx (max_draw_calls : Nat) (callsAllocated : Bool) : Option tgContext :=
  if callsAllocated then
    some { max_draw_calls := max_draw_calls, count := 0,
           calls := List.replicate TG_CTX_ALLOCATED_CALLS none }
  else none

/-- The function `tgPushDrawCall` (lines 611 to 616). A store beyond the end of the
allocated block is undefined behaviour in C and is the `outOfBounds` result
here. -/
def tgPushDrawCall (context : tgContext) (call : tgDrawCall) : Except TgError tgContext :=
  if ¬ (context.count < context.max_draw_calls) then .error (.assertion 614)
  else if ¬ (context.count < context.calls.length) then .error (.outOfBounds 615)
  else .ok { context with calls := context.calls.set context.count (some call),
                          count := (context.count + 1) % 2 ^ 32 }

/-- Submit the calls of a list one after the other. -/
def tgPushDrawCalls : tgContext → List tgDrawCall → Except TgError tgContext
  | context, [] => .ok context
  | context, call :: calls =>
    match tgPushDrawCall context call with
    | .ok context => tgPushDrawCalls context calls
    | .error e => .error e

/-! ## Vertex data and renderables -/

/-- The function `tgMakeVertexData` (lines 198 to 205). -/
def tgMakeVertexData (buffer_size vertex_stride primitive usage : Nat) : tgVertexData :=
  { buffer_size := buffer_size, vertex_stride := vertex_stride, primitive := primitive,
    usage := usage, attributes := [] }

/-- The function `tgAddAttribute` (lines 242 to 253). -/
def tgAddAttribute (vd : tgVertexData) (name : List Nat) (size type offset : Nat) :
    Except TgError tgVertexData :=
  let va : tgVertexAttribute :=
    { name := name, hash := tg_djb2 name, size := size, type := type, offset := offset,
      location := none }
  if ¬ (vd.attribute_count < TG_ATTRIBUTE_MAX_COUNT) then .error (.assertion 251)
  else .ok { vd with attributes := vd.attributes ++ [va] }

/-- The function `tgMakeRenderable` (lines 255 to 271). The fields it does not
assign keep whatever `r` held before. -/
def tgMakeRenderable (r : tgRenderable) (vd : tgVertexData) : tgRenderable :=
  let r := { r with data := vd, index0 := 0, index1 := 0, buffer_number := 0,
                    need_new_sync := 0, program := none,
                    state := ⟨0, 0, 0, 0⟩ }
  if vd.usage = GL_STATIC_DRAW then { r with buffer_count := 1, need_new_sync := 1 }
  else { r with buffer_count := 3 }

/-- The function `tgMap` (lines 275 to 323). The result carries the pointer to the
mapped memory. -/
def tgMap (drv : GLDriver) (r : tgRenderable) (count : Nat) (dev : GLDevice) :
    Except TgError (tgRenderable × GLDevice × Nat) :=
  if ¬ (count ≤ r.data.buffer_size) then .error (.assertion 279)
  else
    let newIndex := (r.index1 + count) % 2 ^ 32
    let step : Except TgError (tgRenderable × GLDevice) :=
      if newIndex > r.data.buffer_size then
        if ¬ (r.data.usage ≠ GL_STATIC_DRAW) then .error (.assertion 286)
        else
          let r := { r with buffer_number := (r.buffer_number + 1) % 2 ^ 32 }
          let r := { r with buffer_number := r.buffer_number % r.buffer_count }
          let fence := r.fences.getD r.buffer_number 0
          let result := drv.clientWaitSync fence
          let dev := dev.emit (.glClientWaitSync fence 0 1000000000)
          if ¬ (result ≠ GL_TIMEOUT_EXPIRED) then .error (.assertion 295)
          else if ¬ (result ≠ GL_WAIT_FAILED) then .error (.assertion 296)
          else
            let dev := dev.emit (.glDeleteSync fence)
            .ok ({ r with index0 := 0, index1 := count, need_new_sync := 1 }, dev)
      else
        .ok ({ r with index0 := r.index1, index1 := newIndex }, dev)
    match step with
    | .error e => .error e
    | .ok (r, dev) =>
      let dev := dev.emit (.glBindBuffer GL_ARRAY_BUFFER (r.buffers.getD r.buffer_number 0))
      let stream_size :=
        (((r.index1 + 2 ^ 32 - r.index0) % 2 ^ 32) * r.data.vertex_stride) % 2 ^ 32
      let offset := (r.index0 * r.data.vertex_stride) % 2 ^ 32
      let memory := drv.mapBufferRange offset stream_size
      let dev := dev.emit (.glMapBufferRange GL_ARRAY_BUFFER offset stream_size
        (GL_MAP_WRITE_BIT ||| GL_MAP_UNSYNCHRONIZED_BIT))
      if memory = 0 then .error (.assertion 318)
      else .ok (r, dev, memory)

/-- The function `tgUnmap` (lines 325 to 328). -/
def tgUnmap (dev : GLDevice) : GLDevice := dev.emit (.glUnmapBuffer GL_ARRAY_BUFFER)

/-- The inner loop of `tgSetShader` (lines 366 to 375): the index of the first
declared attribute with the given hash, counted from `j`. -/
def tgSetShader.find (hash : Nat) : List tgVertexAttribute → Nat → Option Nat
  | [], _ => none
  | b :: bs, j => if b.hash = hash then some j else tgSetShader.find hash bs (j + 1)

/-- The loop of lines 354 to 384 in `tgSetShader`. Iteration `i` receives the
`i`-th active attribute from `glGetActiveAttrib` (into a buffer of 256 bytes),
looks for the declared attribute with the same name hash, checks its type and
stores `i` as its location. -/
def tgSetShader.attribLoop :
    List GLActiveAttrib → Nat → List tgVertexAttribute → Except TgError (List tgVertexAttribute)
  | [], _, attributes => .ok attributes
  | g :: gs, i, attributes =>
    let buffer := glNameInto 256 g.name
    let hash := tg_djb2 buffer
    let type := tgGetGLType g.type
    match tgSetShader.find hash attributes 0 with
    | none => .error (.assertion 380)
    | some j =>
      match attributes[j]? with
      | none => .error (.assertion 380)
      | some a =>
        if ¬ (a.type = type) then .error (.assertion 381)
        else tgSetShader.attribLoop gs (i + 1) (attributes.set j { a with location := some i })

/-- The loop of lines 389 to 397 in `tgSetShader`: one buffer object and one fence
per slot. The arrays `buffers` and `fences` have three cells. -/
def tgSetShader.bufferLoop :
    Nat → Nat → tgRenderable → GLDevice → Except TgError (tgRenderable × GLDevice)
  | 0, _, r, dev => .ok (r, dev)
  | steps + 1, i, r, dev =>
    if ¬ (i < 3) then .error (.outOfBounds 391)
    else
      let (buffer, dev) := dev.fresh
      let dev := dev.emit (.glGenBuffers 1 buffer)
      let r := { r with buffers := r.buffers.set i buffer }
      let dev := dev.emit (.glBindBuffer GL_ARRAY_BUFFER buffer)
      let dev := dev.emit (.glBufferData GL_ARRAY_BUFFER
        ((r.data.buffer_size * r.data.vertex_stride) % 2 ^ 32) 0 r.data.usage)
      let (fence, dev) := dev.fresh
      let dev := dev.emit (.glFenceSync GL_SYNC_GPU_COMMANDS_COMPLETE 0 fence)
      let r := { r with fences := r.fences.set i fence }
      tgSetShader.bufferLoop steps (i + 1) r dev

/-- The function `tgSetShader` (lines 330 to 400). `attribs` is the list of active
attributes the device reports for `program->program`. -/
def tgSetShader (attribs : List GLActiveAttrib) (r : tgRenderable) (program : tgShader)
    (dev : GLDevice) : Except TgError (tgRenderable × GLDevice) :=
  if ¬ (r.program = none) then .error (.assertion 333)
  else
    let r := { r with program := some program }
    let r := { r with attributeCount := attribs.length }
    if r.attributeCount ≠ r.data.attribute_count then .error (.assertion 344)
    else
      match tgSetShader.attribLoop attribs 0 r.data.attributes with
      | .error e => .error e
      | .ok attributes =>
        let r := { r with data := { r.data with attributes := attributes } }
        match tgSetShader.bufferLoop r.buffer_count 0 r dev with
        | .error e => .error e
        | .ok (r, dev) => .ok (r, dev.emit (.glBindBuffer GL_ARRAY_BUFFER 0))

/-! ## Shaders and uniforms -/

def GL_FRAGMENT_SHADER : Nat := 0x8B30
def GL_VERTEX_SHADER : Nat := 0x8B31

/-- The function `tgCompileShader` (lines 402 to 424). `compiled` is the compile
status the device reports for the source. -/
def tgCompileShader (compiled : Bool) (type : Nat) (dev : GLDevice) :
    Except TgError (Nat × GLDevice) :=
  let (handle, dev) := dev.fresh
  let dev := dev.emit (.glCreateShader type handle)
  let dev := dev.emit (.glShaderSource handle)
  let dev := dev.emit (.glCompileShader handle)
  if ¬ compiled then .error (.assertion 419)
  else .ok (handle, dev)

/-- The loop of lines 466 to 484 in `tgLoadShader`. Iteration `i` receives the
`i`-th active uniform from `glGetActiveUniform` (into the 64 bytes of `u.name`)
and asks the device for the location of that name. `all` is the whole list of
active uniforms, which `glGetUniformLocation` consults. -/
def tgLoadShader.uniformLoop (all : List GLActiveUniform) :
    List GLActiveUniform → Nat → List tgUniform → Except TgError (List tgUniform)
  | [], _, uniforms => .ok uniforms
  | g :: gs, i, uniforms =>
    let nameSize := 1 * TG_UNIFORM_NAME_LENGTH
    let name := glNameInto nameSize g.name
    let nameLength := name.length
    if ¬ (nameLength ≤ TG_UNIFORM_NAME_LENGTH) then .error (.assertion 474)
    else
      let u : tgUniform :=
        { name := name, size := g.size,
          location := glGetUniformLocation all name,
          type := tgGetGLType g.type,
          hash := tg_djb2 name,
          id := i }
      tgLoadShader.uniformLoop all gs (i + 1) (uniforms ++ [u])

/-- The two nested loops of lines 488 to 490 in `tgLoadShader`: no two uniforms
have the same hash. -/
def tgLoadShader.noCollision : List tgUniform → Bool
  | [] => true
  | u :: us => us.all (fun v => decide (u.hash ≠ v.hash)) && tgLoadShader.noCollision us

/-- The function `tgLoadShader` (lines 426 to 492). `info` is what the device makes
of the sources `vertex` and `pixel`. -/
def tgLoadShader (info : GLProgramInfo) (dev : GLDevice) : Except TgError (tgShader × GLDevice) :=
  let (program, dev) := dev.fresh
  let dev := dev.emit (.glCreateProgram program)
  match tgCompileShader info.vertexCompiled GL_VERTEX_SHADER dev with
  | .error e => .error e
  | .ok (vs, dev) =>
    match tgCompileShader info.pixelCompiled GL_FRAGMENT_SHADER dev with
    | .error e => .error e
    | .ok (ps, dev) =>
      let dev := dev.emit (.glAttachShader program vs)
      let dev := dev.emit (.glAttachShader program ps)
      let dev := dev.emit (.glLinkProgram program)
      if ¬ info.linked then .error (.assertion 449)
      else
        let dev := dev.emit (.glDetachShader program vs)
        let dev := dev.emit (.glDetachShader program ps)
        let uniform_count := info.uniforms.length
        if ¬ (uniform_count < TG_UNIFORM_MAX_COUNT) then .error (.assertion 463)
        else
          match tgLoadShader.uniformLoop info.uniforms info.uniforms 0 [] with
          | .error e => .error e
          | .ok uniforms =>
            if ¬ tgLoadShader.noCollision uniforms then .error (.assertion 490)
            else .ok ({ program := program, uniforms := uniforms }, dev)

/-- The function `tgFindUniform` (lines 500 to 517); `none` is the null pointer. -/
def tgFindUniform (s : tgShader) (name : List Nat) : Option tgUniform :=
  let hash := tg_djb2 name
  s.uniforms.find? (fun u => decide (u.hash = hash))

/-- The function `tgSetActiveShader` (lines 519 to 522). -/
def tgSetActiveShader (s : tgShader) (dev : GLDevice) : GLDevice :=
  dev.emit (.glUseProgram s.program)

/-- The function `tgDeactivateShader` (lines 524 to 527). -/
def tgDeactivateShader (dev : GLDevice) : GLDevice := dev.emit (.glUseProgram 0)

/-- The function `tgSendF32` (lines 529 to 560). `floats` is the caller's array,
index to bit pattern. -/
def tgSendF32 (s : tgShader) (uniform_name : List Nat) (size : Nat) (floats : Nat → Nat)
    (count : Nat) (dev : GLDevice) : Except TgError GLDevice :=
  match tgFindUniform s uniform_name with
  | none => .error (.assertion 533)
  | some u =>
    if ¬ (size = u.size) then .error (.assertion 534)
    else if ¬ (u.type = TG_FLOAT) then .error (.assertion 535)
    else
      match count with
      | 1 => .ok (dev.emit (.glUniform1f u.location (floats 0)))
      | 2 => .ok (dev.emit (.glUniform2f u.location (floats 0) (floats 1)))
      | 3 => .ok (dev.emit (.glUniform3f u.location (floats 0) (floats 1) (floats 2)))
      | 4 => .ok (dev.emit (.glUniform4f u.location (floats 0) (floats 1) (floats 2) F32_ONE))
      | _ => .error (.assertion 557)

/-- The function `tgSendMatrix` (lines 562 to 571). The device reads sixteen floats
from `floats`. -/
def tgSendMatrix (s : tgShader) (uniform_name : List Nat) (floats : Nat → Nat)
    (dev : GLDevice) : Except TgError GLDevice :=
  match tgFindUniform s uniform_name with
  | none => .error (.assertion 566)
  | some u =>
    if ¬ (u.size = 1) then .error (.assertion 567)
    else if ¬ (u.type = TG_FLOAT) then .error (.assertion 568)
    else .ok (dev.emit (.glUniformMatrix4fv u.id 1 0 ((List.range 16).map floats)))

/-- The function `tgSendTexture` (lines 573 to 581). -/
def tgSendTexture (s : tgShader) (uniform_name : List Nat) (index : Nat) (dev : GLDevice) :
    Except TgError GLDevice :=
  match tgFindUniform s uniform_name with
  | none => .error (.assertion 577)
  | some u =>
    if ¬ (u.type = TG_SAMPLER) then .error (.assertion 578)
    else .ok (dev.emit (.glUniform1i u.location index))

/-! ## Rendering -/

/-- The function `tgGetGLEnum` (lines 618 to 634). -/
def tgGetGLEnum (type : Nat) : Except TgError Nat :=
  if type = TG_FLOAT then .ok GL_FLOAT
  else if type = TG_INT then .ok GL_UNSIGNED_BYTE
  else .error (.assertion 631)

/-- The function `tgDoMap` (lines 636 to 642). -/
def tgDoMap (drv : GLDriver) (call : tgDrawCall) (render : tgRenderable) (dev : GLDevice) :
    Except TgError (tgRenderable × GLDevice) :=
  let count := call.vert_count
  match tgMap drv render count dev with
  | .error e => .error e
  | .ok (render, dev, driver_memory) =>
    let dev := dev.emit (.memcpy driver_memory call.verts
      ((render.data.vertex_stride * count) % 2 ^ 32))
    .ok (render, tgUnmap dev)

/-- The loop of lines 671 to 682 in `tgRender`. -/
def tgRender.enableLoop (vertexStride : Nat) :
    List tgVertexAttribute → GLDevice → Except TgError GLDevice
  | [], dev => .ok dev
  | attr :: attributes, dev =>
    match tgGetGLEnum attr.type with
    | .error e => .error e
    | .ok type =>
      let dev := dev.emit (.glEnableVertexAttribArray attr.location)
      let dev := dev.emit (.glVertexAttribPointer attr.location attr.size type
        GL_FALSE vertexStride attr.offset)
      tgRender.enableLoop vertexStride attributes dev

/-- The loop of lines 684 to 690 in `tgRender`; `textures` has eight cells. -/
def tgRender.textureLoop (textures : List Nat) : Nat → Nat → GLDevice → Except TgError GLDevice
  | 0, _, dev => .ok dev
  | steps + 1, i, dev =>
    match textures[i]? with
    | none => .error (.outOfBounds 686)
    | some gl_id =>
      let dev := dev.emit (.glActiveTexture ((GL_TEXTURE0 + i) % 2 ^ 32))
      let dev := dev.emit (.glBindTexture GL_TEXTURE_2D gl_id)
      tgRender.textureLoop textures steps (i + 1) dev

/-- The loop of lines 703 to 709 in `tgRender`. -/
def tgRender.disableLoop : List tgVertexAttribute → GLDevice → GLDevice
  | [], dev => dev
  | attr :: attributes, dev =>
    tgRender.disableLoop attributes (dev.emit (.glDisableVertexAttribArray attr.location))

/-- The function `tgRender` (lines 644 to 713). `render` is the renderable that
`call->r` points to; the result is its state afterwards. -/
def tgRender (drv : GLDriver) (call : tgDrawCall) (render : tgRenderable) (dev : GLDevice) :
    Except TgError (tgRenderable × GLDevice) :=
  let mapped : Except TgError (tgRenderable × GLDevice) :=
    if render.data.usage = GL_STATIC_DRAW then
      if render.need_new_sync ≠ 0 then
        tgDoMap drv call { render with need_new_sync := 0 } dev
      else .ok (render, dev)
    else tgDoMap drv call render dev
  match mapped with
  | .error e => .error e
  | .ok (render, dev) =>
    match render.program with
    | none => .error (.nullPointer 665)
    | some program =>
      let dev := tgSetActiveShader program dev
      let bufferNumber := render.buffer_number
      let buffer := render.buffers.getD bufferNumber 0
      let dev := dev.emit (.glBindBuffer GL_ARRAY_BUFFER buffer)
      match tgRender.enableLoop render.data.vertex_stride render.data.attributes dev with
      | .error e => .error e
      | .ok dev =>
        match tgRender.textureLoop call.textures call.texture_count 0 dev with
        | .error e => .error e
        | .ok dev =>
          let streamOffset := render.index0
          let streamSize := (render.index1 + 2 ^ 32 - streamOffset) % 2 ^ 32
          let dev := dev.emit (.glDrawArrays render.data.primitive streamOffset streamSize)
          let (render, dev) :=
            if render.need_new_sync ≠ 0 then
              let (fence, dev) := dev.fresh
              let dev := dev.emit (.glFenceSync GL_SYNC_GPU_COMMANDS_COMPLETE 0 fence)
              ({ render with fences := render.fences.set bufferNumber fence,
                             need_new_sync := 0 }, dev)
            else (render, dev)
          let dev := tgRender.disableLoop render.data.attributes dev
          let dev := dev.emit (.glBindBuffer GL_ARRAY_BUFFER 0)
          let dev := dev.emit (.glUseProgram 0)
          .ok (render, dev)

/-- Run `tgRender` for each call of a list, in order, on one renderable. -/
def tgRenderAll (drv : GLDriver) :
    List tgDrawCall → tgRenderable → GLDevice → Except TgError (tgRenderable × GLDevice)
  | [], render, dev => .ok (render, dev)
  | call :: calls, render, dev =>
    match tgRender drv call render dev with
    | .error e => .error e
    | .ok (render, dev) => tgRenderAll drv calls render dev

deriving instance DecidableEq for Except

/-- The hash `tgSetShader` computes for an active attribute (lines 356 to 357). -/
def tgSetShader.reportedHash (g : GLActiveAttrib) : Nat := tg_djb2 (glNameInto 256 g.name)

/-- No two cells of the list hold the same hash. -/
def tgSetShader.HashInj (l : List tgVertexAttribute) : Prop :=
  ∀ (j k : Nat) (a b : tgVertexAttribute), l[j]? = some a → l[k]? = some b → a.hash = b.hash → j = k

/-! ## Sample inputs -/

/-- The bytes of a string literal. -/
def cstr (s : String) : List Nat := s.toList.map Char.toNat

/-- A block of memory for a renderable before `tgMakeRenderable` has run. -/
def sampleMemory : tgRenderable :=
  { data := ⟨0, 0, 0, 0, []⟩, program := none, state := ⟨0, 0, 0, 0⟩, attributeCount := 0,
    index0 := 0, index1 := 0, buffer_number := 0, need_new_sync := 0, buffer_count := 0,
    buffers := [0, 0, 0], fences := [0, 0, 0] }

/-- A device on which nothing has been called yet. -/
def sampleDevice : GLDevice := { calls := [], nextName := 1 }

/-- A device that never stalls: every wait reports the fence as signalled and
every mapping succeeds. -/
def readyDriver : GLDriver :=
  { clientWaitSync := fun _ => GL_ALREADY_SIGNALED, mapBufferRange := fun _ _ => 4096 }

/-- A layout with a position and a colour attribute. -/
def sampleLayout : tgVertexData :=
  { buffer_size := 10, vertex_stride := 28, primitive := 4, usage := GL_DYNAMIC_DRAW,
    attributes :=
      [ { name := cstr "pos", hash := tg_djb2 (cstr "pos"), size := 3, type := TG_FLOAT,
          offset := 0, location := none },
        { name := cstr "col", hash := tg_djb2 (cstr "col"), size := 4, type := TG_FLOAT,
          offset := 12, location := none } ] }

/-- The active attributes of a program that uses the two attributes of
`sampleLayout`, reported in the opposite order. -/
def sampleAttribs : List GLActiveAttrib :=
  [ { name := cstr "col", type := GL_FLOAT_VEC4, size := 1 },
    { name := cstr "pos", type := GL_FLOAT_VEC3, size := 1 } ]

/-- A streamed renderable whose buffer holds `2 ^ 31` vertices, bound to a shader
without attributes. -/
def wideRenderable : Except TgError (tgRenderable × GLDevice) :=
  tgSetShader [] (tgMakeRenderable sampleMemory (tgMakeVertexData (2 ^ 31) 1 4 GL_DYNAMIC_DRAW))
    ⟨7, []⟩ sampleDevice

/-- Two calls of `tgMap` on `wideRenderable`, each for `2 ^ 31` vertices; the
result is the renderable before and after the second call. -/
def wideMapTwice : Except TgError (tgRenderable × tgRenderable) :=
  match wideRenderable with
  | .error e => .error e
  | .ok (r, dev) =>
    match tgMap readyDriver r (2 ^ 31) dev with
    | .error e => .error e
    | .ok (r1, dev, _) =>
      match tgMap readyDriver r1 (2 ^ 31) (tgUnmap dev) with
      | .error e => .error e
      | .ok (r2, _, _) => .ok (r1, r2)

/-- A program with an array of four vectors followed by a matrix; the linker
gives the array locations 0 to 3 and the matrix location 4. -/
def matrixProgram : GLProgramInfo :=
  { vertexCompiled := true, pixelCompiled := true, linked := true,
    uniforms :=
      [ { name := cstr "lights[0]", type := GL_FLOAT_VEC4, size := 4, location := 0 },
        { name := cstr "mvp", type := GL_FLOAT_MAT4, size := 1, location := 4 } ] }

/-- The colour (0.25, 0.5, 0.75, 0.5) as four float bit patterns. -/
def sampleColour (i : Nat) : Nat := [0x3E800000, 0x3F000000, 0x3F400000, 0x3F000000].getD i 0

/-- A program with one four-component float uniform. -/
def tintProgram : GLProgramInfo :=
  { vertexCompiled := true, pixelCompiled := true, linked := true,
    uniforms := [ { name := cstr "tint", type := GL_FLOAT_VEC4, size := 1, location := 0 } ] }

/-- A program with `n` float uniforms named `a`, `b`, `c`, and so on. -/
def lettersProgram (n : Nat) : GLProgramInfo :=
  { vertexCompiled := true, pixelCompiled := true, linked := true,
    uniforms := (List.range n).map
      (fun i => { name := [97 + i], type := GL_FLOAT, size := 1, location := i }) }

/-- A layout with two attributes whose names `ab` and `bA` have the same hash. -/
def collidingLayout : Except TgError tgVertexData :=
  match tgAddAttribute (tgMakeVertexData 10 20 4 GL_DYNAMIC_DRAW) (cstr "ab") 3 TG_FLOAT 0 with
  | .error e => .error e
  | .ok vd => tgAddAttribute vd (cstr "bA") 2 TG_FLOAT 12

/-- The active attributes of a program that declares exactly `ab` and `bA`, with
the types of `collidingLayout`. -/
def collidingAttribs : List GLActiveAttrib :=
  [ { name := cstr "ab", type := GL_FLOAT_VEC3, size := 1 },
    { name := cstr "bA", type := GL_FLOAT_VEC2, size := 1 } ]

/-! ## Fences and draws in the call log -/

/-- The position in the log, counted from `pos`, of the `glFenceSync` call that
returned `sync`. -/
def fenceRecordedAt (sync : Nat) : List GLCall → Nat → Option Nat
  | [], _ => none
  | .glFenceSync _ _ s :: cs, pos =>
    if s = sync then some pos else fenceRecordedAt sync cs (pos + 1)
  | _ :: cs, pos => fenceRecordedAt sync cs (pos + 1)

/-- The positions in the log of the `glDrawArrays` calls issued while `buffer` was
bound; `bound` is the buffer bound at the start and `pos` the position of the
first call of the list. -/
def drawsFromBuffer (buffer : Nat) : List GLCall → Nat → Nat → List Nat
  | [], _, _ => []
  | .glBindBuffer _ b :: cs, _, pos => drawsFromBuffer buffer cs b (pos + 1)
  | .glDrawArrays _ _ _ :: cs, bound, pos =>
    if bound = buffer then pos :: drawsFromBuffer buffer cs bound (pos + 1)
    else drawsFromBuffer buffer cs bound (pos + 1)
  | _ :: cs, bound, pos => drawsFromBuffer buffer cs bound (pos + 1)

/-- The buffer named by the first `glBindBuffer` of the list. After the wait in
`tgMap` this is the buffer of the slot being reused (line 310). -/
def nextBoundBuffer : List GLCall → Option Nat
  | [] => none
  | .glBindBuffer _ b :: _ => some b
  | _ :: cs => nextBoundBuffer cs

/-- Walk the log `all`: at every `glClientWaitSync`, every draw issued so far from
the buffer of the slot being reused must precede the `glFenceSync` that
created the fence waited on. -/
def fencesCoverDraws.go (all : List GLCall) : List GLCall → Nat → Bool
  | [], _ => true
  | .glClientWaitSync sync _ _ :: cs, pos =>
    (match nextBoundBuffer cs, fenceRecordedAt sync all 0 with
      | some b, some q => (drawsFromBuffer b (all.take pos) 0 0).all (fun p => decide (p < q))
      | _, _ => false)
    && fencesCoverDraws.go all cs (pos + 1)
  | _ :: cs, pos => fencesCoverDraws.go all cs (pos + 1)

/-- Every fence that `tgMap` waits on was recorded after all draws issued so far
from the slot it gates. -/
def fencesCoverDraws (calls : List GLCall) : Bool := fencesCoverDraws.go calls calls 0

/-- A draw call for ten vertices without textures. -/
def tenVertices : tgDrawCall :=
  { vert_count := 10, verts := 8192, r := 0, texture_count := 0,
    textures := [0, 0, 0, 0, 0, 0, 0, 0] }

/-- Bind a streamed renderable with room for ten vertices per slot to a shader,
then render four calls of ten vertices each. -/
def fourFullDraws : Except TgError (tgRenderable × GLDevice) :=
  match tgSetShader sampleAttribs (tgMakeRenderable sampleMemory sampleLayout) ⟨7, []⟩
      sampleDevice with
  | .error e => .error e
  | .ok (r, dev) => tgRenderAll readyDriver (List.replicate 4 tenVertices) r dev

/-- Load `tintProgram` and send `sampleColour` to its uniform with `count = 4`, on
an empty call log. -/
def sendTint : Except TgError GLDevice :=
  match tgLoadShader tintProgram sampleDevice with
  | .error e => .error e
  | .ok (s, _) => tgSendF32 s (cstr "tint") 1 sampleColour 4 { calls := [], nextName := 0 }

/-- Bind `collidingLayout` to the program that reports `collidingAttribs`. -/
def bindColliding : Except TgError (tgRenderable × GLDevice) :=
  match collidingLayout with
  | .error e => .error e
  | .ok vd =>
    tgSetShader collidingAttribs (tgMakeRenderable sampleMemory vd) ⟨7, []⟩ sampleDevice

/-! ## Sorting the queue -/


theorem tgQSort_swap_length (l : List tgDrawCall) (i j : Nat) :
    (tgQSort.swap l i j).length = l.length := by
  simp [tgQSort.swap]

theorem tgQSort_swap_getD (l : List tgDrawCall) (i j n : Nat) (hi : i < l.length)
    (hj : j < l.length) :
    (tgQSort.swap l i j).getD n default
      = if n = j then l.getD i default else if n = i then l.getD j default
        else l.getD n default := by
  simp only [tgQSort.swap, List.getD_eq_getElem?_getD, List.getElem?_set]
  by_cases h1 : n = j
  · subst h1
    simp [hj]
  · by_cases h2 : n = i
    · subst h2
      simp [hi, h1, Ne.symm h1]
    · simp [h1, h2, Ne.symm h1, Ne.symm h2]

theorem tgQSort_swap_perm (l : List tgDrawCall) (i j : Nat) (hi : i < l.length)
    (hj : j < l.length) : (tgQSort.swap l i j).Perm l := by
  rw [List.perm_iff_count]
  intro a
  have hj2 : j < (l.set i l[j]).length := by simpa using hj
  have e1 : l.getD i default = l[i] := List.getD_eq_getElem _ _ hi
  have e2 : l.getD j default = l[j] := List.getD_eq_getElem _ _ hj
  simp only [tgQSort.swap, e1, e2]
  rw [List.count_set _ _ _ _ hj2, List.count_set _ _ _ _ hi]
  have ci := List.count_pos_iff.2 (List.getElem_mem hi)
  have cj := List.count_pos_iff.2 (List.getElem_mem hj)
  simp only [List.getElem_set]
  by_cases hij : i = j
  · subst hij
    simp only [if_true]
    by_cases h : l[i] = a
    · subst h; simp
    · simp [h]
  · simp only [hij, if_false]
    by_cases h1 : l[i] = a <;> by_cases h2 : l[j] = a
    all_goals
      simp only [h1, h2, beq_self_eq_true, beq_iff_eq, if_true, if_false]
      try subst h1
      try subst h2
      omega


theorem tgQSort_loop_spec (heap : Nat → tgRenderable) (pivot : tgDrawCall) :
    ∀ (steps i low : Nat) (items : List tgDrawCall),
      low ≤ i → i + steps < items.length →
      (∀ j, j < low → tgCallSortPred heap (items.getD j default) pivot = true) →
      (∀ j, low ≤ j → j < i → tgCallSortPred heap (items.getD j default) pivot = false) →
      (tgQSort.loop heap pivot steps i low items).1 ≤ i + steps ∧
      (tgQSort.loop heap pivot steps i low items).2.length = items.length ∧
      (tgQSort.loop heap pivot steps i low items).2.Perm items ∧
      (∀ n, i + steps ≤ n →
        (tgQSort.loop heap pivot steps i low items).2.getD n default = items.getD n default) ∧
      (∀ j, j < (tgQSort.loop heap pivot steps i low items).1 →
        tgCallSortPred heap ((tgQSort.loop heap pivot steps i low items).2.getD j default) pivot
          = true) ∧
      (∀ j, (tgQSort.loop heap pivot steps i low items).1 ≤ j → j < i + steps →
        tgCallSortPred heap ((tgQSort.loop heap pivot steps i low items).2.getD j default) pivot
          = false) := by
  intro steps
  induction steps with
  | zero =>
    intro i low items hli _ hlt hge
    exact ⟨hli, rfl, List.Perm.refl _, fun _ _ => rfl, hlt, hge⟩
  | succ steps ih =>
    intro i low items hli hlen hlt hge
    have hi : i < items.length := by omega
    have hlow : low < items.length := by omega
    by_cases hp : tgCallSortPred heap (items.getD i default) pivot = true
    · have hstep : tgQSort.loop heap pivot (steps + 1) i low items
          = tgQSort.loop heap pivot steps (i + 1) (low + 1) (tgQSort.swap items i low) := by
        simp only [tgQSort.loop, hp, if_true]
      rw [hstep]
      have hsl := tgQSort_swap_length items i low
      have hsg := fun n => tgQSort_swap_getD items i low n hi hlow
      obtain ⟨h1, h2, h3, h4, h5, h6⟩ := ih (i + 1) (low + 1) (tgQSort.swap items i low)
        (by omega) (by omega)
        (by
          intro j hj
          rw [hsg]
          by_cases e1 : j = low
          · simpa [e1] using hp
          · have e2 : j ≠ i := by omega
            simp only [e1, e2, if_false]
            exact hlt j (by omega))
        (by
          intro j hj1 hj2
          rw [hsg]
          have e1 : j ≠ low := by omega
          by_cases e2 : j = i
          · subst e2
            simp only [e1, if_false, if_true]
            exact hge low (Nat.le_refl _) (by omega)
          · simp only [e1, e2, if_false]
            exact hge j (by omega) (by omega))
      refine ⟨by omega, by omega, h3.trans (tgQSort_swap_perm items i low hi hlow), ?_, h5, ?_⟩
      · intro n hn
        rw [h4 n (by omega), hsg]
        have e1 : n ≠ low := by omega
        have e2 : n ≠ i := by omega
        simp [e1, e2]
      · intro j hj1 hj2
        exact h6 j hj1 (by omega)
    · have hp' : tgCallSortPred heap (items.getD i default) pivot = false := by
        simpa using hp
      have hstep : tgQSort.loop heap pivot (steps + 1) i low items
          = tgQSort.loop heap pivot steps (i + 1) low items := by
        simp only [tgQSort.loop, hp', Bool.false_eq_true, if_false]
      rw [hstep]
      obtain ⟨h1, h2, h3, h4, h5, h6⟩ := ih (i + 1) low items (by omega) (by omega) hlt
        (by
          intro j hj1 hj2
          by_cases e : j = i
          · rw [e]; exact hp'
          · exact hge j hj1 (by omega))
      refine ⟨by omega, h2, h3, ?_, h5, ?_⟩
      · intro n hn
        exact h4 n (by omega)
      · intro j hj1 hj2
        exact h6 j hj1 (by omega)


theorem tgQSort_partition_eq (heap : Nat → tgRenderable) (items : List tgDrawCall) :
    tgQSort.partition heap items
      = ((tgQSort.loop heap (items.getD (items.length - 1) default)
            (items.length - 1) 0 0 items).1,
         ((tgQSort.loop heap (items.getD (items.length - 1) default)
            (items.length - 1) 0 0 items).2.set (items.length - 1)
            ((tgQSort.loop heap (items.getD (items.length - 1) default)
              (items.length - 1) 0 0 items).2.getD
              (tgQSort.loop heap (items.getD (items.length - 1) default)
                (items.length - 1) 0 0 items).1 default)).set
            (tgQSort.loop heap (items.getD (items.length - 1) default)
              (items.length - 1) 0 0 items).1
            (items.getD (items.length - 1) default)) := rfl

theorem tgQSort_partition_spec (heap : Nat → tgRenderable) (items : List tgDrawCall)
    (hn : 1 ≤ items.length) :
    (tgQSort.partition heap items).1 < items.length ∧
    (tgQSort.partition heap items).2.length = items.length ∧
    (tgQSort.partition heap items).2.Perm items ∧
    (∀ j, j < (tgQSort.partition heap items).1 →
      tgCallSortPred heap ((tgQSort.partition heap items).2.getD j default)
        ((tgQSort.partition heap items).2.getD (tgQSort.partition heap items).1 default) = true) ∧
    (∀ j, (tgQSort.partition heap items).1 < j → j < items.length →
      tgCallSortPred heap ((tgQSort.partition heap items).2.getD j default)
        ((tgQSort.partition heap items).2.getD (tgQSort.partition heap items).1 default)
        = false) := by
  obtain ⟨h1, h2, h3, h4, h5, h6⟩ := tgQSort_loop_spec heap
    (items.getD (items.length - 1) default) (items.length - 1) 0 0 items (Nat.le_refl _)
    (by omega) (fun j hj => absurd hj (Nat.not_lt_zero j))
    (fun j _ hj => absurd hj (Nat.not_lt_zero j))
  rw [tgQSort_partition_eq]
  generalize hpv : items.getD (items.length - 1) default = pivot at *
  generalize hlp : tgQSort.loop heap pivot (items.length - 1) 0 0 items = lp at *
  obtain ⟨low, l1⟩ := lp
  simp only at h1 h2 h3 h4 h5 h6 ⊢
  simp only [Nat.zero_add] at h1 h4 h6
  have hlast : l1.getD (items.length - 1) default = pivot := by
    rw [h4 _ (Nat.le_refl _), hpv]
  have hsw : (l1.set (items.length - 1) (l1.getD low default)).set low pivot
      = tgQSort.swap l1 (items.length - 1) low := by
    simp only [tgQSort.swap, hlast]
  rw [hsw]
  have hi : items.length - 1 < l1.length := by omega
  have hlow : low < l1.length := by omega
  have hg := fun n => tgQSort_swap_getD l1 (items.length - 1) low n hi hlow
  have hpiv : (tgQSort.swap l1 (items.length - 1) low).getD low default = pivot := by
    rw [hg, if_pos rfl, hlast]
  rw [hpiv]
  refine ⟨by omega, by rw [tgQSort_swap_length]; exact h2,
    (tgQSort_swap_perm l1 _ _ hi hlow).trans h3, ?_, ?_⟩
  · intro j hj
    rw [hg]
    have e1 : j ≠ low := by omega
    have e2 : j ≠ items.length - 1 := by omega
    simp only [e1, e2, if_false]
    exact h5 j hj
  · intro j hj1 hj2
    rw [hg]
    have e1 : j ≠ low := by omega
    by_cases e2 : j = items.length - 1
    · have e3 : items.length - 1 ≠ low := by omega
      rw [if_neg e1, if_pos e2]
      exact h6 low (Nat.le_refl _) (by omega)
    · simp only [e1, e2, if_false]
      exact h6 j (by omega) (by omega)


theorem tgQSort_mem_take_getD (l : List tgDrawCall) (n : Nat) (x : tgDrawCall)
    (hx : x ∈ l.take n) : ∃ j, j < n ∧ j < l.length ∧ l.getD j default = x := by
  obtain ⟨j, hj, e⟩ := List.mem_iff_getElem.1 hx
  have hj' : j < n ∧ j < l.length := by
    simpa [List.length_take] using hj
  refine ⟨j, hj'.1, hj'.2, ?_⟩
  rw [List.getD_eq_getElem _ _ hj'.2, ← e]
  simp

theorem tgQSort_mem_drop_getD (l : List tgDrawCall) (n : Nat) (x : tgDrawCall)
    (hx : x ∈ l.drop n) : ∃ j, n ≤ j ∧ j < l.length ∧ l.getD j default = x := by
  obtain ⟨j, hj, e⟩ := List.mem_iff_getElem.1 hx
  have hj' : n + j < l.length := by
    simp only [List.length_drop] at hj
    omega
  refine ⟨n + j, Nat.le_add_right _ _, hj', ?_⟩
  rw [List.getD_eq_getElem _ _ hj', ← e]
  simp

theorem tgQSort_split_at (l : List tgDrawCall) (n : Nat) (hn : n < l.length) :
    (l.drop n).take 1 = [l.getD n default] ∧
    l.take n ++ (l.drop n).take 1 ++ l.drop (n + 1) = l := by
  have h : l.drop n = l.getD n default :: l.drop (n + 1) := by
    rw [List.getD_eq_getElem _ _ hn]
    exact List.drop_eq_getElem_cons hn
  constructor
  · rw [h]; rfl
  · rw [h]
    simp only [List.take_succ_cons, List.take_zero, List.append_assoc, List.singleton_append]
    rw [← h, List.take_append_drop]

theorem tgQSort_go_spec (heap : Nat → tgRenderable) :
    ∀ (fuel : Nat) (items : List tgDrawCall), items.length ≤ fuel →
      (tgQSort.go heap fuel items).Perm items ∧
      List.Pairwise (fun a b => (heap a.r).state.key ≤ (heap b.r).state.key)
        (tgQSort.go heap fuel items) := by
  intro fuel
  induction fuel with
  | zero =>
    intro items h
    have : items = [] := List.length_eq_zero.1 (Nat.le_zero.1 h)
    subst this
    exact ⟨List.Perm.refl _, List.Pairwise.nil⟩
  | succ fuel ih =>
    intro items h
    by_cases hs : items.length ≤ 1
    · have e : tgQSort.go heap (fuel + 1) items = items := by
        simp only [tgQSort.go, hs, if_true]
      rw [e]
      refine ⟨List.Perm.refl _, ?_⟩
      match items, hs with
      | [], _ => exact List.Pairwise.nil
      | [a], _ => exact List.pairwise_singleton _ a
    · have e : tgQSort.go heap (fuel + 1) items
          = tgQSort.go heap fuel ((tgQSort.partition heap items).2.take
              (tgQSort.partition heap items).1)
            ++ ((tgQSort.partition heap items).2.drop (tgQSort.partition heap items).1).take 1
            ++ tgQSort.go heap fuel ((tgQSort.partition heap items).2.drop
              ((tgQSort.partition heap items).1 + 1)) := by
        simp only [tgQSort.go, hs, if_false]
      rw [e]
      obtain ⟨p1, p2, p3, p4, p5⟩ := tgQSort_partition_spec heap items (by omega)
      generalize tgQSort.partition heap items = pr at *
      obtain ⟨low, out⟩ := pr
      simp only at p1 p2 p3 p4 p5 ⊢
      have hlow : low < out.length := by omega
      obtain ⟨s1, s2⟩ := tgQSort_split_at out low hlow
      obtain ⟨a1, a2⟩ := ih (out.take low) (by rw [List.length_take]; omega)
      obtain ⟨b1, b2⟩ := ih (out.drop (low + 1)) (by rw [List.length_drop]; omega)
      have hleft : ∀ x ∈ tgQSort.go heap fuel (out.take low),
          (heap x.r).state.key < (heap (out.getD low default).r).state.key := by
        intro x hx
        obtain ⟨j, hj1, _, hj3⟩ := tgQSort_mem_take_getD out low x (a1.mem_iff.1 hx)
        have := p4 j hj1
        rw [hj3] at this
        simpa [tgCallSortPred] using this
      have hright : ∀ x ∈ tgQSort.go heap fuel (out.drop (low + 1)),
          (heap (out.getD low default).r).state.key ≤ (heap x.r).state.key := by
        intro x hx
        obtain ⟨j, hj1, hj2, hj3⟩ := tgQSort_mem_drop_getD out (low + 1) x (b1.mem_iff.1 hx)
        have := p5 j (by omega) (by omega)
        rw [hj3] at this
        simpa [tgCallSortPred] using this
      constructor
      · refine List.Perm.trans ?_ (s2 ▸ p3)
        exact (a1.append_right _).append b1
      · rw [s1, List.pairwise_append, List.pairwise_append]
        refine ⟨⟨a2, List.pairwise_singleton _ _, ?_⟩, b2, ?_⟩
        · intro a ha b hb
          rw [List.mem_singleton.1 hb]
          exact Nat.le_of_lt (hleft a ha)
        · intro a ha b hb
          rcases List.mem_append.1 ha with ha | ha
          · exact Nat.le_trans (Nat.le_of_lt (hleft a ha)) (hright b hb)
          · rw [List.mem_singleton.1 ha]
            exact hright b hb


/-- C1. For every queue of draw calls, `tgQSort` leaves a rearrangement of the same
calls (same multiset) in which the keys of the renderables the calls point to
are non-decreasing from the first to the last index; the empty queue and a
queue of one call are left as they are. -/
theorem tgQSort_sorts (heap : Nat → tgRenderable) (items : List tgDrawCall) :
    (tgQSort heap items).Perm items ∧
    List.Pairwise (fun a b => (heap a.r).state.key ≤ (heap b.r).state.key)
      (tgQSort heap items) ∧
    tgQSort heap [] = [] ∧
    (∀ c : tgDrawCall, tgQSort heap [c] = [c]) :=
  ⟨(tgQSort_go_spec heap items.length items (Nat.le_refl _)).1,
    (tgQSort_go_spec heap items.length items (Nat.le_refl _)).2, rfl, fun _ => rfl⟩


/-! ## The sort key -/

/-- C2, counterexample. The state with only `fullscreen = 1` has key 1 and the
state with only `translucency = 1` has key `2 ^ 32`: the first key is the
smaller one although (1, 0, 0, 0) is not lexicographically below (0, 0, 0, 1).
So `fullscreen` does not dominate the comparison of keys. -/
theorem tgRenderState_key_not_fullscreen_major :
    tgRenderState.inRange ⟨1, 0, 0, 0⟩ ∧ tgRenderState.inRange ⟨0, 0, 0, 1⟩ ∧
    ¬ (tgRenderState.key ⟨1, 0, 0, 0⟩ < tgRenderState.key ⟨0, 0, 0, 1⟩ ↔
        lexLt4 (1, 0, 0, 0) (0, 0, 0, 1)) := by
  decide

/-- C2, as amended. For render states whose fields lie within their bit widths,
`a.key < b.key` holds exactly when (translucency, depth, hud, fullscreen) of `a`
is lexicographically below that of `b`: `translucency` dominates and
`fullscreen` breaks ties last. -/
theorem tgRenderState_key_lt_iff (a b : tgRenderState) (ha : a.inRange) (hb : b.inRange) :
    a.key < b.key ↔
      lexLt4 (a.translucency, a.depth, a.hud, a.fullscreen)
        (b.translucency, b.depth, b.hud, b.fullscreen) := by
  obtain ⟨a1, a2, a3, a4⟩ := ha
  obtain ⟨b1, b2, b3, b4⟩ := hb
  simp only [tgRenderState.key, lexLt4, Nat.mod_eq_of_lt a1, Nat.mod_eq_of_lt a2,
    Nat.mod_eq_of_lt a3, Nat.mod_eq_of_lt a4, Nat.mod_eq_of_lt b1, Nat.mod_eq_of_lt b2,
    Nat.mod_eq_of_lt b3, Nat.mod_eq_of_lt b4]
  norm_num at a1 a2 a3 a4 b1 b2 b3 b4 ⊢
  omega

/-- C2, witness: the amended statement at `fullscreen = 3` against
`translucency = 1`. -/
theorem tgRenderState_key_lt_iff_witness :
    (tgRenderState.key ⟨3, 0, 0, 0⟩ < tgRenderState.key ⟨0, 0, 0, 1⟩ ↔
      lexLt4 (0, 0, 0, 3) (1, 0, 0, 0)) :=
  tgRenderState_key_lt_iff ⟨3, 0, 0, 0⟩ ⟨0, 0, 0, 1⟩ (by decide) (by decide)


/-! ## Binding a shader to a renderable -/

theorem tgSetShader_find_none (hash : Nat) :
    ∀ (l : List tgVertexAttribute) (j : Nat),
      tgSetShader.find hash l j = none →
        ∀ (k : Nat) (a : tgVertexAttribute), l[k]? = some a → a.hash ≠ hash := by
  intro l
  induction l with
  | nil => intro j _ k a h; simp at h
  | cons b bs ih =>
    intro j h k a hk
    by_cases hb : b.hash = hash
    · simp [tgSetShader.find, hb] at h
    · simp only [tgSetShader.find, hb, if_false] at h
      cases k with
      | zero =>
        simp only [List.getElem?_cons_zero, Option.some.injEq] at hk
        rw [← hk]; exact hb
      | succ k =>
        simp only [List.getElem?_cons_succ] at hk
        exact ih (j + 1) h k a hk

theorem tgSetShader_find_some (hash : Nat) :
    ∀ (l : List tgVertexAttribute) (j n : Nat),
      tgSetShader.find hash l j = some n →
        j ≤ n ∧ ∃ a, l[n - j]? = some a ∧ a.hash = hash := by
  intro l
  induction l with
  | nil => intro j n h; simp [tgSetShader.find] at h
  | cons b bs ih =>
    intro j n h
    by_cases hb : b.hash = hash
    · simp only [tgSetShader.find, hb, if_true, Option.some.injEq] at h
      subst h
      exact ⟨Nat.le_refl _, b, by simp, hb⟩
    · simp only [tgSetShader.find, hb, if_false] at h
      obtain ⟨h1, a, h2, h3⟩ := ih (j + 1) n h
      refine ⟨by omega, a, ?_, h3⟩
      have e : n - j = (n - (j + 1)) + 1 := by omega
      rw [e, List.getElem?_cons_succ]
      exact h2


theorem tgSetShader_hashInj_of_nodup (l : List tgVertexAttribute)
    (h : (l.map (fun a => a.hash)).Nodup) : tgSetShader.HashInj l := by
  unfold tgSetShader.HashInj
  intro j k a b hj hk hab
  rw [List.nodup_iff_getElem?_ne_getElem?] at h
  by_contra hne
  have hjl : j < l.length := by
    by_contra hc
    rw [List.getElem?_eq_none (by omega)] at hj
    exact Option.noConfusion hj
  have hkl : k < l.length := by
    by_contra hc
    rw [List.getElem?_eq_none (by omega)] at hk
    exact Option.noConfusion hk
  have e1 : (l.map (fun a => a.hash))[j]? = some a.hash := by simp [hj]
  have e2 : (l.map (fun a => a.hash))[k]? = some b.hash := by simp [hk]
  rcases Nat.lt_or_gt_of_ne hne with hlt | hlt
  · exact h j k hlt (by simpa using hkl) (by rw [e1, e2, hab])
  · exact h k j hlt (by simpa using hjl) (by rw [e1, e2, hab])

theorem tgSetShader_hashInj_set (l : List tgVertexAttribute) (n : Nat) (a : tgVertexAttribute)
    (i : Nat) (hn : l[n]? = some a) (h : tgSetShader.HashInj l) :
    tgSetShader.HashInj (l.set n { a with location := some i }) := by
  have hnl : n < l.length := by
    by_contra hc
    rw [List.getElem?_eq_none (by omega)] at hn
    exact Option.noConfusion hn
  unfold tgSetShader.HashInj at h ⊢
  intro j k x y hj hk hxy
  rw [List.getElem?_set] at hj hk
  by_cases e1 : n = j <;> by_cases e2 : n = k
  · omega
  · rw [if_pos e1, if_pos hnl] at hj
    rw [if_neg e2] at hk
    subst e1
    simp only [Option.some.injEq] at hj
    exact h n k a y hn hk (by rw [← hxy, ← hj])
  · rw [if_neg e1] at hj
    rw [if_pos e2, if_pos hnl] at hk
    subst e2
    simp only [Option.some.injEq] at hk
    exact h j n x a hj hn (by rw [hxy, ← hk])
  · rw [if_neg e1] at hj
    rw [if_neg e2] at hk
    exact h j k x y hj hk hxy


theorem tgSetShader_index_lt (l : List tgVertexAttribute) (n : Nat) (a : tgVertexAttribute)
    (h : l[n]? = some a) : n < l.length := by
  by_contra hc
  rw [List.getElem?_eq_none (by omega)] at h
  exact Option.noConfusion h

theorem tgSetShader_attribLoop_step (g : GLActiveAttrib) (gs : List GLActiveAttrib) (i : Nat)
    (attrs : List tgVertexAttribute) (j0 : Nat) (a0 : tgVertexAttribute)
    (hf : tgSetShader.find (tgSetShader.reportedHash g) attrs 0 = some j0)
    (ha0 : attrs[j0]? = some a0) (ht : a0.type = tgGetGLType g.type) :
    tgSetShader.attribLoop (g :: gs) i attrs
      = tgSetShader.attribLoop gs (i + 1) (attrs.set j0 { a0 with location := some i }) := by
  unfold tgSetShader.reportedHash at hf
  simp only [tgSetShader.attribLoop, hf, ha0, ht, not_true_eq_false, if_false]

theorem tgSetShader_attribLoop_complete :
    ∀ (gs : List GLActiveAttrib) (i : Nat) (attrs : List tgVertexAttribute),
      tgSetShader.HashInj attrs →
      (∀ g ∈ gs, ∃ (j : Nat) (d : tgVertexAttribute), attrs[j]? = some d ∧
        d.hash = tgSetShader.reportedHash g ∧ d.type = tgGetGLType g.type) →
      ∃ out, tgSetShader.attribLoop gs i attrs = .ok out ∧ out.length = attrs.length ∧
        ∀ (j : Nat) (a : tgVertexAttribute), attrs[j]? = some a →
          (∃ (k : Nat) (g : GLActiveAttrib), gs[k]? = some g ∧
              tgSetShader.reportedHash g = a.hash ∧
              out[j]? = some { a with location := some (i + k) })
          ∨ (out[j]? = some a ∧ ∀ g ∈ gs, tgSetShader.reportedHash g ≠ a.hash) := by
  intro gs
  induction gs with
  | nil =>
    intro i attrs _ _
    exact ⟨attrs, rfl, rfl, fun j a h => Or.inr ⟨h, fun g hg => absurd hg (List.not_mem_nil g)⟩⟩
  | cons g gs ih =>
    intro i attrs hinj hall
    obtain ⟨jd, d, hd1, hd2, hd3⟩ := hall g (List.mem_cons_self g gs)
    cases hf : tgSetShader.find (tgSetShader.reportedHash g) attrs 0 with
    | none => exact absurd hd2 (tgSetShader_find_none _ _ _ hf jd d hd1)
    | some j0 =>
      obtain ⟨_, a0, ha0, hh0⟩ := tgSetShader_find_some _ _ _ _ hf
      rw [Nat.sub_zero] at ha0
      have hj : j0 = jd := hinj j0 jd a0 d ha0 hd1 (hh0.trans hd2.symm)
      subst hj
      have had : a0 = d := Option.some.inj (ha0.symm.trans hd1)
      subst had
      have hj0 : j0 < attrs.length := tgSetShader_index_lt _ _ _ ha0
      rw [tgSetShader_attribLoop_step g gs i attrs j0 a0 hf ha0 hd3]
      obtain ⟨out, ho1, ho2, ho3⟩ := ih (i + 1) (attrs.set j0 { a0 with location := some i })
        (tgSetShader_hashInj_set attrs j0 a0 i ha0 hinj)
        (by
          intro g' hg'
          obtain ⟨j, d', h1, h2, h3⟩ := hall g' (List.mem_cons_of_mem g hg')
          by_cases e : j0 = j
          · subst e
            have : a0 = d' := Option.some.inj (ha0.symm.trans h1)
            subst this
            exact ⟨j0, { a0 with location := some i },
              by rw [List.getElem?_set, if_pos rfl, if_pos hj0], h2, h3⟩
          · exact ⟨j, d', by rw [List.getElem?_set, if_neg e]; exact h1, h2, h3⟩)
      refine ⟨out, ho1, by rw [ho2, List.length_set], ?_⟩
      intro j a hja
      by_cases e : j0 = j
      · subst e
        have hae : a0 = a := Option.some.inj (ha0.symm.trans hja)
        subst hae
        rcases ho3 j0 { a0 with location := some i }
            (by rw [List.getElem?_set, if_pos rfl, if_pos hj0]) with ⟨k, g', h1, h2, h3⟩ | ⟨h1, _⟩
        · exact Or.inl ⟨k + 1, g', by rw [List.getElem?_cons_succ]; exact h1, h2,
            by rw [h3, Nat.add_assoc, Nat.add_comm 1 k]⟩
        · exact Or.inl ⟨0, g, by simp, hh0.symm, by rw [h1, Nat.add_zero]⟩
      · rcases ho3 j a (by rw [List.getElem?_set, if_neg e]; exact hja)
            with ⟨k, g', h1, h2, h3⟩ | ⟨h1, h2⟩
        · exact Or.inl ⟨k + 1, g', by rw [List.getElem?_cons_succ]; exact h1, h2,
            by rw [h3, Nat.add_assoc, Nat.add_comm 1 k]⟩
        · refine Or.inr ⟨h1, ?_⟩
          intro g' hg'
          rcases List.mem_cons.1 hg' with hg' | hg'
          · subst hg'
            intro hc
            exact e (hinj j0 j a0 a ha0 hja (hh0.trans hc))
          · exact h2 g' hg'

theorem tgSetShader_attribLoop_sound :
    ∀ (gs : List GLActiveAttrib) (i : Nat) (attrs out : List tgVertexAttribute),
      tgSetShader.attribLoop gs i attrs = .ok out →
      ∀ g ∈ gs, ∃ (j : Nat) (d : tgVertexAttribute), attrs[j]? = some d ∧
        d.hash = tgSetShader.reportedHash g ∧ d.type = tgGetGLType g.type := by
  intro gs
  induction gs with
  | nil => intro i attrs out _ g hg; exact absurd hg (List.not_mem_nil g)
  | cons g gs ih =>
    intro i attrs out h g' hg'
    cases hf : tgSetShader.find (tgSetShader.reportedHash g) attrs 0 with
    | none =>
      unfold tgSetShader.reportedHash at hf
      simp [tgSetShader.attribLoop, hf] at h
    | some j0 =>
      obtain ⟨_, a0, ha0, hh0⟩ := tgSetShader_find_some _ _ _ _ hf
      rw [Nat.sub_zero] at ha0
      have hj0 : j0 < attrs.length := tgSetShader_index_lt _ _ _ ha0
      by_cases ht : a0.type = tgGetGLType g.type
      · rw [tgSetShader_attribLoop_step g gs i attrs j0 a0 hf ha0 ht] at h
        rcases List.mem_cons.1 hg' with e | hg'
        · subst e
          exact ⟨j0, a0, ha0, hh0, ht⟩
        · obtain ⟨j, d, h1, h2, h3⟩ := ih _ _ _ h g' hg'
          rw [List.getElem?_set] at h1
          by_cases e : j0 = j
          · rw [if_pos e, if_pos hj0] at h1
            have := Option.some.inj h1
            subst this
            exact ⟨j0, a0, ha0, h2, h3⟩
          · rw [if_neg e] at h1
            exact ⟨j, d, h1, h2, h3⟩
      · unfold tgSetShader.reportedHash at hf
        simp [tgSetShader.attribLoop, hf, ha0, ht] at h


theorem tgSetShader_bufferLoop_data :
    ∀ (steps i : Nat) (r : tgRenderable) (dev : GLDevice) (p : tgRenderable × GLDevice),
      tgSetShader.bufferLoop steps i r dev = .ok p → p.1.data = r.data := by
  intro steps
  induction steps with
  | zero =>
    intro i r dev p h
    simp only [tgSetShader.bufferLoop, Except.ok.injEq] at h
    rw [← h]
  | succ steps ih =>
    intro i r dev p h
    by_cases hi : i < 3
    · simp only [tgSetShader.bufferLoop, hi, not_true_eq_false, if_false] at h
      have := ih _ _ _ _ h
      exact this
    · simp [tgSetShader.bufferLoop, hi] at h

theorem tgSetShader_bufferLoop_ok :
    ∀ (steps i : Nat) (r : tgRenderable) (dev : GLDevice), i + steps ≤ 3 →
      ∃ p, tgSetShader.bufferLoop steps i r dev = .ok p := by
  intro steps
  induction steps with
  | zero => intro i r dev _; exact ⟨(r, dev), rfl⟩
  | succ steps ih =>
    intro i r dev h
    have hi : i < 3 := by omega
    simp only [tgSetShader.bufferLoop, hi, not_true_eq_false, if_false]
    exact ih _ _ _ (by omega)

theorem tgSetShader_unfold_of_count (attribs : List GLActiveAttrib) (r : tgRenderable)
    (program : tgShader) (dev : GLDevice) (hp : r.program = none)
    (hc : attribs.length = r.data.attributes.length) :
    tgSetShader attribs r program dev
      = match tgSetShader.attribLoop attribs 0 r.data.attributes with
        | .error e => .error e
        | .ok attributes =>
          match tgSetShader.bufferLoop r.buffer_count 0
              { r with program := some program, attributeCount := attribs.length,
                       data := { r.data with attributes := attributes } } dev with
          | .error e => .error e
          | .ok (r, dev) => .ok (r, dev.emit (.glBindBuffer GL_ARRAY_BUFFER 0)) := by
  unfold tgSetShader
  rw [if_neg (fun h => h hp)]
  simp only []
  rw [if_neg (fun h => h hc)]

theorem tgSetShader_ok_of_attribLoop (attribs : List GLActiveAttrib) (r : tgRenderable)
    (program : tgShader) (dev : GLDevice) (attrs : List tgVertexAttribute)
    (hp : r.program = none) (hb : r.buffer_count ≤ 3)
    (hc : attribs.length = r.data.attributes.length)
    (hl : tgSetShader.attribLoop attribs 0 r.data.attributes = .ok attrs) :
    ∃ out, tgSetShader attribs r program dev = .ok out := by
  rw [tgSetShader_unfold_of_count attribs r program dev hp hc, hl]
  simp only []
  obtain ⟨p, hp2⟩ := tgSetShader_bufferLoop_ok r.buffer_count 0
    { r with program := some program, attributeCount := attribs.length,
             data := { r.data with attributes := attrs } } dev (by omega)
  rw [hp2]
  exact ⟨_, rfl⟩

theorem tgSetShader_attribLoop_of_ok (attribs : List GLActiveAttrib) (r : tgRenderable)
    (program : tgShader) (dev : GLDevice) (out : tgRenderable × GLDevice)
    (h : tgSetShader attribs r program dev = .ok out) :
    r.program = none ∧ attribs.length = r.data.attributes.length ∧
      tgSetShader.attribLoop attribs 0 r.data.attributes = .ok out.1.data.attributes := by
  by_cases hp : r.program = none
  · by_cases hc : attribs.length = r.data.attributes.length
    · refine ⟨hp, hc, ?_⟩
      rw [tgSetShader_unfold_of_count attribs r program dev hp hc] at h
      cases hl : tgSetShader.attribLoop attribs 0 r.data.attributes with
      | error e => rw [hl] at h; exact Except.noConfusion h
      | ok attrs =>
        rw [hl] at h
        simp only [] at h
        cases hb : tgSetShader.bufferLoop r.buffer_count 0
            { r with program := some program, attributeCount := attribs.length,
                     data := { r.data with attributes := attrs } } dev with
        | error e => rw [hb] at h; exact Except.noConfusion h
        | ok p =>
          rw [hb] at h
          have hd := tgSetShader_bufferLoop_data _ _ _ _ _ hb
          have e : out = (p.1, p.2.emit (.glBindBuffer GL_ARRAY_BUFFER 0)) :=
            (Except.ok.inj h).symm
          rw [e]
          simp only [hd]
    · have : tgSetShader attribs r program dev = .error (.assertion 344) := by
        unfold tgSetShader
        rw [if_neg (fun h => h hp)]
        simp only []
        rw [if_pos (show attribs.length ≠ r.data.attribute_count from hc)]
      rw [this] at h
      exact Except.noConfusion h
  · have : tgSetShader attribs r program dev = .error (.assertion 333) := by
      unfold tgSetShader
      rw [if_pos hp]
    rw [this] at h
    exact Except.noConfusion h

theorem tgSetShader_reported_covers (attribs : List GLActiveAttrib)
    (attrs : List tgVertexAttribute)
    (hs : (attribs.map tgSetShader.reportedHash).Nodup)
    (hc : attribs.length = attrs.length)
    (hall : ∀ g ∈ attribs, ∃ (j : Nat) (d : tgVertexAttribute), attrs[j]? = some d ∧
      d.hash = tgSetShader.reportedHash g ∧ d.type = tgGetGLType g.type) :
    ∀ d ∈ attrs, ∃ g ∈ attribs, tgSetShader.reportedHash g = d.hash := by
  have hsub : attribs.map tgSetShader.reportedHash ⊆ attrs.map (fun a => a.hash) := by
    intro h hh
    obtain ⟨g, hg, rfl⟩ := List.mem_map.1 hh
    obtain ⟨j, d, h1, h2, _⟩ := hall g hg
    exact List.mem_map.2 ⟨d, List.mem_iff_getElem?.2 ⟨j, h1⟩, h2⟩
  have hperm := (List.subperm_of_subset hs hsub).perm_of_length_le
    (by simp only [List.length_map]; omega)
  intro d hd
  have : d.hash ∈ attribs.map tgSetShader.reportedHash :=
    hperm.symm.subset (List.mem_map.2 ⟨d, hd, rfl⟩)
  obtain ⟨g, hg, e⟩ := List.mem_map.1 this
  exact ⟨g, hg, e⟩


theorem tgMakeRenderable_fresh (r0 : tgRenderable) (vd : tgVertexData) :
    (tgMakeRenderable r0 vd).program = none ∧ (tgMakeRenderable r0 vd).data = vd ∧
      (tgMakeRenderable r0 vd).buffer_count ≤ 3 := by
  unfold tgMakeRenderable
  by_cases h : vd.usage = GL_STATIC_DRAW
  · simp [h]
  · simp [h]

/-- C5. For a renderable fresh from `tgMakeRenderable` (no shader bound) whose
declared attributes have pairwise distinct hashes, and a program whose active
attribute names have pairwise distinct hashes: `tgSetShader` succeeds exactly
when the program reports as many attributes as were declared and every
reported attribute has a declared attribute with the same name hash whose type
is `tgGetGLType` of the reported type; on success each declared attribute
carries as location the index at which the program reported the attribute with
its hash, and is otherwise unchanged. On a renderable that already has a shader
`tgSetShader` fails its first assertion. -/
theorem tgSetShader_spec (attribs : List GLActiveAttrib) (r0 : tgRenderable)
    (vd : tgVertexData) (program : tgShader) (dev : GLDevice)
    (hd : (vd.attributes.map (fun a => a.hash)).Nodup)
    (hs : (attribs.map (fun g => tg_djb2 (glNameInto 256 g.name))).Nodup) :
    ((∃ out, tgSetShader attribs (tgMakeRenderable r0 vd) program dev = .ok out) ↔
      (attribs.length = vd.attribute_count ∧
        ∀ g ∈ attribs, ∃ d ∈ vd.attributes,
          d.hash = tg_djb2 (glNameInto 256 g.name) ∧ d.type = tgGetGLType g.type)) ∧
    (∀ out, tgSetShader attribs (tgMakeRenderable r0 vd) program dev = .ok out →
      out.1.data.attributes.length = vd.attributes.length ∧
      ∀ (j : Nat) (d : tgVertexAttribute), vd.attributes[j]? = some d →
        ∃ (i : Nat) (g : GLActiveAttrib), attribs[i]? = some g ∧
          tg_djb2 (glNameInto 256 g.name) = d.hash ∧
          out.1.data.attributes[j]? = some { d with location := some i }) ∧
    (∀ (r : tgRenderable) (s : tgShader), r.program = some s →
      tgSetShader attribs r program dev = .error (.assertion 333)) := by
  obtain ⟨f1, f2, f3⟩ := tgMakeRenderable_fresh r0 vd
  have hinj := tgSetShader_hashInj_of_nodup vd.attributes hd
  have hs' : (attribs.map tgSetShader.reportedHash).Nodup := hs
  have toIdx : (∀ g ∈ attribs, ∃ d ∈ vd.attributes,
        d.hash = tg_djb2 (glNameInto 256 g.name) ∧ d.type = tgGetGLType g.type) →
      ∀ g ∈ attribs, ∃ (j : Nat) (d : tgVertexAttribute), vd.attributes[j]? = some d ∧
        d.hash = tgSetShader.reportedHash g ∧ d.type = tgGetGLType g.type := by
    intro h g hg
    obtain ⟨d, hd1, hd2, hd3⟩ := h g hg
    obtain ⟨j, hj⟩ := List.mem_iff_getElem?.1 hd1
    exact ⟨j, d, hj, hd2, hd3⟩
  refine ⟨⟨?_, ?_⟩, ?_, ?_⟩
  · rintro ⟨out, h⟩
    obtain ⟨_, hc, hl⟩ := tgSetShader_attribLoop_of_ok _ _ _ _ _ h
    rw [f2] at hc hl
    refine ⟨hc, ?_⟩
    intro g hg
    obtain ⟨j, d, h1, h2, h3⟩ := tgSetShader_attribLoop_sound _ _ _ _ hl g hg
    exact ⟨d, List.mem_iff_getElem?.2 ⟨j, h1⟩, h2, h3⟩
  · rintro ⟨hc, hall⟩
    obtain ⟨attrs, hl, _, _⟩ :=
      tgSetShader_attribLoop_complete attribs 0 vd.attributes hinj (toIdx hall)
    exact tgSetShader_ok_of_attribLoop attribs _ program dev attrs f1 f3
      (by rw [f2]; exact hc) (by rw [f2]; exact hl)
  · intro out h
    obtain ⟨_, hc, hl⟩ := tgSetShader_attribLoop_of_ok _ _ _ _ _ h
    rw [f2] at hc hl
    have hall := tgSetShader_attribLoop_sound _ _ _ _ hl
    obtain ⟨attrs, hl', hlen, hloc⟩ :=
      tgSetShader_attribLoop_complete attribs 0 vd.attributes hinj hall
    have e : attrs = out.1.data.attributes := Except.ok.inj (hl'.symm.trans hl)
    subst e
    refine ⟨hlen, ?_⟩
    intro j d hj
    rcases hloc j d hj with ⟨k, g, h1, h2, h3⟩ | ⟨_, h2⟩
    · exact ⟨k, g, h1, h2, by rw [h3, Nat.zero_add]⟩
    · obtain ⟨g, hg, e⟩ := tgSetShader_reported_covers attribs vd.attributes hs' hc hall d
        (List.mem_iff_getElem?.2 ⟨j, hj⟩)
      exact absurd e (h2 g hg)
  · intro r s hr
    unfold tgSetShader
    rw [if_pos (by rw [hr]; exact fun h => Option.noConfusion h)]

/-- C5, witness: `sampleLayout` declares `pos` and `col`, the program reports `col`
and `pos`; both hypotheses and the matching condition hold, so binding
succeeds. -/
theorem tgSetShader_spec_witness :
    (sampleLayout.attributes.map (fun a => a.hash)).Nodup ∧
    (sampleAttribs.map (fun g => tg_djb2 (glNameInto 256 g.name))).Nodup ∧
    (sampleAttribs.length = sampleLayout.attribute_count ∧
      ∀ g ∈ sampleAttribs, ∃ d ∈ sampleLayout.attributes,
        d.hash = tg_djb2 (glNameInto 256 g.name) ∧ d.type = tgGetGLType g.type) ∧
    ∃ out, tgSetShader sampleAttribs (tgMakeRenderable sampleMemory sampleLayout) ⟨7, []⟩
      sampleDevice = .ok out :=
  ⟨by decide, by decide, by decide,
    (tgSetShader_spec sampleAttribs sampleMemory sampleLayout ⟨7, []⟩ sampleDevice
      (by decide) (by decide)).1.2 (by decide)⟩

/-! ## The draw call queue -/

theorem tgPushDrawCalls_within :
    ∀ (calls : List tgDrawCall) (ctx : tgContext),
      ctx.count + calls.length ≤ ctx.max_draw_calls →
      ctx.count + calls.length ≤ ctx.calls.length →
      ctx.count + calls.length < 2 ^ 32 →
      ∃ ctx', tgPushDrawCalls ctx calls = .ok ctx' ∧
        ctx'.count = ctx.count + calls.length ∧
        ctx'.max_draw_calls = ctx.max_draw_calls ∧
        ctx'.calls.length = ctx.calls.length ∧
        (∀ j, j < ctx.count → ctx'.calls[j]? = ctx.calls[j]?) ∧
        (∀ (k : Nat) (c : tgDrawCall), calls[k]? = some c →
          ctx'.calls[ctx.count + k]? = some (some c)) := by
  intro calls
  induction calls with
  | nil =>
    intro ctx _ _ _
    exact ⟨ctx, rfl, rfl, rfl, rfl, fun _ _ => rfl, fun k c h => by simp at h⟩
  | cons c cs ih =>
    intro ctx h1 h2 h3
    simp only [List.length_cons] at h1 h2 h3
    have a1 : ctx.count < ctx.max_draw_calls := by omega
    have a2 : ctx.count < ctx.calls.length := by omega
    have hpush : tgPushDrawCall ctx c
        = .ok { ctx with calls := ctx.calls.set ctx.count (some c),
                         count := ctx.count + 1 } := by
      simp only [tgPushDrawCall, a1, a2, not_true_eq_false, if_false]
      rw [Nat.mod_eq_of_lt (by omega)]
    obtain ⟨ctx', e1, e2, e3, e4, e5, e6⟩ :=
      ih { ctx with calls := ctx.calls.set ctx.count (some c), count := ctx.count + 1 }
        (by simp only; omega) (by simp only [List.length_set]; omega) (by simp only; omega)
    simp only [List.length_set] at e2 e3 e4 e5 e6
    refine ⟨ctx', ?_, by simp only [List.length_cons]; omega, e3, e4, ?_, ?_⟩
    · simp only [tgPushDrawCalls, hpush]
      exact e1
    · intro j hj
      rw [e5 j (by omega), List.getElem?_set_ne (by omega)]
    · intro k x hk
      cases k with
      | zero =>
        simp only [List.getElem?_cons_zero, Option.some.injEq] at hk
        rw [Nat.add_zero, e5 ctx.count (by omega), List.getElem?_set_self a2, hk]
      | succ k =>
        simp only [List.getElem?_cons_succ] at hk
        have := e6 k x hk
        rw [show ctx.count + (k + 1) = ctx.count + 1 + k by omega]
        exact this

/-- C4. With capacity 1025 the context still holds storage for 1024 calls:
1024 submissions succeed and fill it, the 1025th passes the capacity assertion
(1024 < 1025) and stores at index 1024, one past the end of the block that
`tgMakeCtx` allocated. -/
theorem tgPushDrawCall_overruns_allocation (call : tgDrawCall) :
    ∃ ctx0 ctx, tgMakeCtx 1025 true = some ctx0 ∧
      tgPushDrawCalls ctx0 (List.replicate 1024 call) = .ok ctx ∧
      ctx.count = 1024 ∧ ctx.count < ctx.max_draw_calls ∧ ctx.calls.length = 1024 ∧
      tgPushDrawCall ctx call = .error (.outOfBounds 615) := by
  obtain ⟨ctx, e1, e2, e3, e4, _, _⟩ := tgPushDrawCalls_within (List.replicate 1024 call)
    { max_draw_calls := 1025, count := 0, calls := List.replicate TG_CTX_ALLOCATED_CALLS none }
    (by simp only [List.length_replicate]; omega)
    (by simp only [List.length_replicate, TG_CTX_ALLOCATED_CALLS]; omega)
    (by simp only [List.length_replicate]; omega)
  simp only [List.length_replicate, Nat.zero_add, TG_CTX_ALLOCATED_CALLS] at e2 e3 e4
  refine ⟨_, ctx, rfl, e1, e2, by omega, e4, ?_⟩
  have a1 : ctx.count < ctx.max_draw_calls := by omega
  have a2 : ¬ ctx.count < ctx.calls.length := by omega
  simp only [tgPushDrawCall, a1, a2, not_true_eq_false, not_false_eq_true, if_false, if_true]

/-- For every capacity up to the 1024 calls that `tgMakeCtx` allocates, the queue
behaves as a bounded queue: `n` submissions succeed, each stored at the index
equal to the count before it, and one more fails the capacity assertion. -/
theorem tgPushDrawCall_capacity (n : Nat) (calls : List tgDrawCall) (extra : tgDrawCall)
    (hn : n ≤ 1024) (hc : calls.length = n) :
    ∃ ctx0 ctx, tgMakeCtx n true = some ctx0 ∧ tgPushDrawCalls ctx0 calls = .ok ctx ∧
      ctx.count = n ∧
      (∀ (k : Nat) (c : tgDrawCall), calls[k]? = some c → ctx.calls[k]? = some (some c)) ∧
      tgPushDrawCall ctx extra = .error (.assertion 614) := by
  obtain ⟨ctx, e1, e2, e3, _, _, e6⟩ := tgPushDrawCalls_within calls
    { max_draw_calls := n, count := 0, calls := List.replicate TG_CTX_ALLOCATED_CALLS none }
    (by simp only; omega)
    (by simp only [List.length_replicate, TG_CTX_ALLOCATED_CALLS]; omega)
    (by simp only; omega)
  simp only [Nat.zero_add] at e2 e3 e6
  refine ⟨_, ctx, rfl, e1, by omega, e6, ?_⟩
  have a1 : ¬ ctx.count < ctx.max_draw_calls := by omega
  simp only [tgPushDrawCall, a1, not_false_eq_true, if_true]

/-! ## The streaming ring -/

/-- C3. On a streamed renderable whose buffer holds `2 ^ 31` vertices, after one
`tgMap` of `2 ^ 31` vertices the cursor `index1` is `2 ^ 31`, equal to the buffer
size, so nothing remains in the slot. A second `tgMap` of `2 ^ 31` vertices
exceeds what remains, but `index1 + count` wraps to 0 in `uint32_t`: the slot is
not rotated and the region becomes `index0 = 2 ^ 31`, `index1 = 0`. -/
theorem tgMap_cursor_wraps :
    wideMapTwice.map (fun p =>
        (p.1.data.usage, p.1.data.buffer_size, p.1.buffer_count, p.1.buffer_number, p.1.index1))
      = .ok (GL_DYNAMIC_DRAW, 2 ^ 31, 3, 0, 2 ^ 31) ∧
    wideMapTwice.map (fun p => (p.2.buffer_number, p.2.index0, p.2.index1))
      = .ok (0, 2 ^ 31, 0) := by
  decide

/-- Away from the 32-bit wrap-around the ring behaves as specified: on a streamed
renderable with `index1 ≤ buffer_size`, for `count ≤ buffer_size` and a device
that does not fail, `tgMap` keeps the slot and appends the region when `count`
fits in what remains, and otherwise moves to the next slot and restarts the
region at 0. -/
theorem tgMap_ring_of_no_wrap (drv : GLDriver) (r : tgRenderable) (count : Nat) (dev : GLDevice)
    (hu : r.data.usage ≠ GL_STATIC_DRAW) (hi : r.index1 ≤ r.data.buffer_size)
    (hc : count ≤ r.data.buffer_size) (hw : r.index1 + count < 2 ^ 32)
    (hb : r.buffer_number + 1 < 2 ^ 32)
    (hwait : ∀ f, drv.clientWaitSync f ≠ GL_TIMEOUT_EXPIRED ∧ drv.clientWaitSync f ≠ GL_WAIT_FAILED)
    (hmap : ∀ o s, drv.mapBufferRange o s ≠ 0) :
    ∃ r' dev' m, tgMap drv r count dev = .ok (r', dev', m) ∧
      (count ≤ r.data.buffer_size - r.index1 →
        r'.buffer_number = r.buffer_number ∧ r'.index0 = r.index1 ∧
          r'.index1 = r.index1 + count) ∧
      (count > r.data.buffer_size - r.index1 →
        r'.buffer_number = (r.buffer_number + 1) % r.buffer_count ∧ r'.index0 = 0 ∧
          r'.index1 = count) := by
  have hmod : (r.index1 + count) % 2 ^ 32 = r.index1 + count := Nat.mod_eq_of_lt hw
  have hmod2 : (r.buffer_number + 1) % 2 ^ 32 = r.buffer_number + 1 := Nat.mod_eq_of_lt hb
  by_cases hgt : r.index1 + count > r.data.buffer_size
  · simp only [tgMap, hc, not_true_eq_false, if_false, hmod, hgt, if_true, hu, ne_eq,
      not_false_eq_true, hmod2, (hwait _).1, (hwait _).2, hmap]
    refine ⟨_, _, _, rfl, ?_, ?_⟩
    · intro h; omega
    · intro _; exact ⟨rfl, rfl, rfl⟩
  · simp only [tgMap, hc, not_true_eq_false, if_false, hmod, hgt, hmap]
    refine ⟨_, _, _, rfl, ?_, ?_⟩
    · intro _; exact ⟨rfl, rfl, rfl⟩
    · intro h; omega


/-! ## Uniforms -/

/-- C6. For the program `matrixProgram` the device reports location 4 for `mvp`,
and `tgLoadShader` stores it: the table entry has size 1, float type, location 4
and declaration index 1. `tgSendMatrix` passes the declaration index, not the
location, to `glUniformMatrix4fv`: the matrix goes to location 1. -/
theorem tgSendMatrix_sends_to_index (m : Nat → Nat) :
    ∃ s dev, tgLoadShader matrixProgram sampleDevice = .ok (s, dev) ∧
      glGetUniformLocation matrixProgram.uniforms (cstr "mvp") = 4 ∧
      (tgFindUniform s (cstr "mvp")).map (fun u => (u.size, u.type, u.location, u.id))
        = some (1, TG_FLOAT, 4, 1) ∧
      tgSendMatrix s (cstr "mvp") m dev
        = .ok (dev.emit (.glUniformMatrix4fv 1 1 0 ((List.range 16).map m))) :=
  ⟨_, _, rfl, by decide, by decide, rfl⟩

/-- Whatever the shader and the name, `tgSendMatrix` addresses the uniform by its
declaration index `id`. -/
theorem tgSendMatrix_sends_to_id (s : tgShader) (name : List Nat) (m : Nat → Nat)
    (dev : GLDevice) (u : tgUniform) (hf : tgFindUniform s name = some u) (hs : u.size = 1)
    (ht : u.type = TG_FLOAT) :
    tgSendMatrix s name m dev
      = .ok (dev.emit (.glUniformMatrix4fv u.id 1 0 ((List.range 16).map m))) := by
  simp only [tgSendMatrix, hf, hs, ht, not_true_eq_false, if_false]

/-- C8. With `count = 4`, `tgSendF32` sends the constant `1.0f` as fourth component
instead of `floats[3]`: for the colour (0.25, 0.5, 0.75, 0.5) the device
receives (0.25, 0.5, 0.75, 1.0). -/
theorem tgSendF32_four_drops_last :
    sampleColour 3 = 0x3F000000 ∧ F32_ONE ≠ sampleColour 3 ∧
    sendTint
      = .ok { calls := [.glUniform4f 0 0x3E800000 0x3F000000 0x3F400000 0x3F800000],
              nextName := 0 } := by
  decide

/-- For the counts 1, 2 and 3 `tgSendF32` forwards exactly the caller's floats, for
4 it forwards the first three and `1.0f`, and for every other count it fails. -/
theorem tgSendF32_forwards (s : tgShader) (name : List Nat) (size : Nat) (floats : Nat → Nat)
    (count : Nat) (dev : GLDevice) (u : tgUniform) (hf : tgFindUniform s name = some u)
    (hs : size = u.size) (ht : u.type = TG_FLOAT) :
    tgSendF32 s name size floats 1 dev = .ok (dev.emit (.glUniform1f u.location (floats 0))) ∧
    tgSendF32 s name size floats 2 dev
      = .ok (dev.emit (.glUniform2f u.location (floats 0) (floats 1))) ∧
    tgSendF32 s name size floats 3 dev
      = .ok (dev.emit (.glUniform3f u.location (floats 0) (floats 1) (floats 2))) ∧
    tgSendF32 s name size floats 4 dev
      = .ok (dev.emit (.glUniform4f u.location (floats 0) (floats 1) (floats 2) F32_ONE)) ∧
    (count = 0 ∨ 4 < count → tgSendF32 s name size floats count dev = .error (.assertion 557)) := by
  refine ⟨?_, ?_, ?_, ?_, ?_⟩
  · simp only [tgSendF32, hf, hs, ht, not_true_eq_false, if_false]
  · simp only [tgSendF32, hf, hs, ht, not_true_eq_false, if_false]
  · simp only [tgSendF32, hf, hs, ht, not_true_eq_false, if_false]
  · simp only [tgSendF32, hf, hs, ht, not_true_eq_false, if_false]
  · intro hcount
    simp only [tgSendF32, hf, hs, ht, not_true_eq_false, if_false]
    match count, hcount with
    | 0, _ => rfl
    | 1, h => omega
    | 2, h => omega
    | 3, h => omega
    | 4, h => omega
    | n + 5, _ => rfl

/-- C9. A program with exactly 16 active uniforms, with short names and pairwise
distinct hashes, is rejected by the assertion of line 463, although the table
`uniforms` has 16 cells; the same program with 15 uniforms loads and fills the
table in declaration order. -/
theorem tgLoadShader_rejects_sixteen :
    (lettersProgram 16).uniforms.length = TG_UNIFORM_MAX_COUNT ∧
    ((lettersProgram 16).uniforms.map (fun g => tg_djb2 g.name)).Nodup ∧
    (∀ g ∈ (lettersProgram 16).uniforms, g.name.length < TG_UNIFORM_NAME_LENGTH) ∧
    tgLoadShader (lettersProgram 16) sampleDevice = .error (.assertion 463) ∧
    (tgLoadShader (lettersProgram 15) sampleDevice).map
        (fun p => p.1.uniforms.map (fun u => (u.name, u.id)))
      = .ok ((List.range 15).map (fun i => ([97 + i], i))) := by
  decide

/-! ## Hash collisions between attributes -/

/-- C7. The names `ab` and `bA` are distinct and have the same `tg_djb2` hash.
A layout that registers both is accepted by `tgSetShader` for the program that
reports exactly these two names with matching types: both reported attributes
are matched to the first declared one, whose location ends as 1, and the second
declared attribute never receives a location. -/
theorem tgSetShader_accepts_colliding_names :
    cstr "ab" ≠ cstr "bA" ∧ tg_djb2 (cstr "ab") = tg_djb2 (cstr "bA") ∧
    bindColliding.map (fun p => p.1.data.attributes.map (fun a => (a.name, a.location)))
      = .ok [(cstr "ab", some 1), (cstr "bA", none)] := by
  decide

/-! ## Fences -/

/-- C10. Four draws of ten vertices on a streamed renderable with ten vertices per
slot. The first draw (position 23 of the call log) is issued from the buffer
of slot 0 (buffer 1, bound at position 18), and no fence is recorded after it.
The fourth draw rotates back into slot 0: `tgMap` waits on and deletes fence 2
(positions 64 and 65) and binds buffer 1 again (position 66). Fence 2 is the
one `tgSetShader` recorded at position 3, before the first draw. -/
theorem tgRender_reuses_slot_unfenced :
    fourFullDraws.map (fun p =>
        [p.2.calls[3]?, p.2.calls[18]?, p.2.calls[23]?, p.2.calls[64]?, p.2.calls[65]?,
          p.2.calls[66]?])
      = .ok [some (.glFenceSync GL_SYNC_GPU_COMMANDS_COMPLETE 0 2),
             some (.glBindBuffer GL_ARRAY_BUFFER 1),
             some (.glDrawArrays 4 0 10),
             some (.glClientWaitSync 2 0 1000000000),
             some (.glDeleteSync 2),
             some (.glBindBuffer GL_ARRAY_BUFFER 1)] ∧
    fourFullDraws.map
        (fun p => (fenceRecordedAt 2 p.2.calls 0, drawsFromBuffer 1 (p.2.calls.take 64) 0 0))
      = .ok (some 3, [23]) ∧
    fourFullDraws.map (fun p => fencesCoverDraws p.2.calls) = .ok false := by
  decide

end TinyGL
